import Mathlib

/-!
Verification development for the `twitter-streams-rs` repository.

Shallow embedding conventions:
* Rust byte strings (`str`, `String`, `Bytes`) are `List Nat`, each element a
  byte value `0..255`; ASCII string literals are injected with `strBytes`.
* Machine integers (`u8`, `u32`, `u64`, `u128`) are `Nat` with explicit
  `% 2 ^ w` where Rust wrapping matters.
* A Rust `assert!` (panic) is modelled by the operation returning `none`.
* The running `Hmac<Sha1>` accumulator (`MacWrite`) is modelled by recording
  the exact byte sequence fed to it (`macInput`); `build` runs HMAC-SHA1 over
  that sequence, which is observationally the same as feeding incrementally.
-/

namespace TwitterStreams

/-- Bytes of an ASCII string literal. -/
def strBytes (s : String) : List Nat := s.data.map Char.toNat

/-- Rust `str` comparison (`*self.prev_key < *_k`): strict lexicographic
byte order. -/
def listLt : List Nat → List Nat → Bool
  | [], [] => false
  | [], _ :: _ => true
  | _ :: _, [] => false
  | a :: as_, b :: bs => if a < b then true else if b < a then false else listLt as_ bs

/-- The 256-entry `ENCODE_MAP` table from `EncodeSet::contains` in
`query_builder.rs` (`true` = byte is percent-encoded), transcribed row by
row (8 entries per row, as in the source). -/
def ENCODE_MAP : List Bool := [
  true,  true,  true,  true,  true,  true,  true,  true,
  true,  true,  true,  true,  true,  true,  true,  true,
  true,  true,  true,  true,  true,  true,  true,  true,
  true,  true,  true,  true,  true,  true,  true,  true,
  true,  true,  true,  true,  true,  true,  true,  true,
  true,  true,  true,  true,  true,  false, false, true,
  false, false, false, false, false, false, false, false,
  false, false, true,  true,  true,  true,  true,  true,
  true,  false, false, false, false, false, false, false,
  false, false, false, false, false, false, false, false,
  false, false, false, false, false, false, false, false,
  false, false, false, true,  true,  true,  true,  false,
  true,  false, false, false, false, false, false, false,
  false, false, false, false, false, false, false, false,
  false, false, false, false, false, false, false, false,
  false, false, false, true,  true,  true,  false, true,
  true,  true,  true,  true,  true,  true,  true,  true,
  true,  true,  true,  true,  true,  true,  true,  true,
  true,  true,  true,  true,  true,  true,  true,  true,
  true,  true,  true,  true,  true,  true,  true,  true,
  true,  true,  true,  true,  true,  true,  true,  true,
  true,  true,  true,  true,  true,  true,  true,  true,
  true,  true,  true,  true,  true,  true,  true,  true,
  true,  true,  true,  true,  true,  true,  true,  true,
  true,  true,  true,  true,  true,  true,  true,  true,
  true,  true,  true,  true,  true,  true,  true,  true,
  true,  true,  true,  true,  true,  true,  true,  true,
  true,  true,  true,  true,  true,  true,  true,  true,
  true,  true,  true,  true,  true,  true,  true,  true,
  true,  true,  true,  true,  true,  true,  true,  true,
  true,  true,  true,  true,  true,  true,  true,  true,
  true,  true,  true,  true,  true,  true,  true,  true]

/-- `EncodeSet::contains` from `query_builder.rs`: table lookup. -/
def encodeSetContains (b : Nat) : Bool := ENCODE_MAP.getD b true

/-- Uppercase hexadecimal digit byte for a value `0..15`. -/
def hexDigit (n : Nat) : Nat := if n < 10 then 48 + n else 55 + n

/-- Percent-encoding of a single byte with `EncodeSet` (behaviour of the
`percent_encoding` crate collaborator used by `percent_encode` in
`query_builder.rs`): an encoded byte becomes a `%XX` uppercase-hex triple,
any other byte is copied verbatim. -/
def peByte (b : Nat) : List Nat :=
  if encodeSetContains b then [37, hexDigit (b / 16), hexDigit (b % 16)] else [b]

/-- `percent_encode` from `query_builder.rs` (via the `percent_encoding`
crate): byte-wise percent-encoding with `EncodeSet`. -/
def percent_encode (bs : List Nat) : List Nat := bs.flatMap peByte

/-- `percent_encoding::percent_encode_byte` (the crate function used by the
`double_percent_encode` test): the `%XX` uppercase-hex form of a byte. -/
def percent_encode_byte (b : Nat) : List Nat := [37, hexDigit (b / 16), hexDigit (b % 16)]

/-- The 1280-byte constant table of `double_encode_byte` in
`query_builder.rs`, transcribed line by line (Rust's `\`-newline escapes
splice the 32 chunks together without separators). -/
def DOUBLE_ENCODE_TABLE : List Nat := strBytes (
  "%2500%2501%2502%2503%2504%2505%2506%2507" ++
  "%2508%2509%250A%250B%250C%250D%250E%250F" ++
  "%2510%2511%2512%2513%2514%2515%2516%2517" ++
  "%2518%2519%251A%251B%251C%251D%251E%251F" ++
  "%2520%2521%2522%2523%2524%2525%2526%2527" ++
  "%2528%2529%252A%252B%252C%252D%252E%252F" ++
  "%2530%2531%2532%2533%2534%2535%2536%2537" ++
  "%2538%2539%253A%253B%253C%253D%253E%253F" ++
  "%2540%2541%2542%2543%2544%2545%2546%2547" ++
  "%2548%2549%254A%254B%254C%254D%254E%254F" ++
  "%2550%2551%2552%2553%2554%2555%2556%2557" ++
  "%2558%2559%255A%255B%255C%255D%255E%255F" ++
  "%2560%2561%2562%2563%2564%2565%2566%2567" ++
  "%2568%2569%256A%256B%256C%256D%256E%256F" ++
  "%2570%2571%2572%2573%2574%2575%2576%2577" ++
  "%2578%2579%257A%257B%257C%257D%257E%257F" ++
  "%2580%2581%2582%2583%2584%2585%2586%2587" ++
  "%2588%2589%258A%258B%258C%258D%258E%258F" ++
  "%2590%2591%2592%2593%2594%2595%2596%2597" ++
  "%2598%2599%259A%259B%259C%259D%259E%259F" ++
  "%25A0%25A1%25A2%25A3%25A4%25A5%25A6%25A7" ++
  "%25A8%25A9%25AA%25AB%25AC%25AD%25AE%25AF" ++
  "%25B0%25B1%25B2%25B3%25B4%25B5%25B6%25B7" ++
  "%25B8%25B9%25BA%25BB%25BC%25BD%25BE%25BF" ++
  "%25C0%25C1%25C2%25C3%25C4%25C5%25C6%25C7" ++
  "%25C8%25C9%25CA%25CB%25CC%25CD%25CE%25CF" ++
  "%25D0%25D1%25D2%25D3%25D4%25D5%25D6%25D7" ++
  "%25D8%25D9%25DA%25DB%25DC%25DD%25DE%25DF" ++
  "%25E0%25E1%25E2%25E3%25E4%25E5%25E6%25E7" ++
  "%25E8%25E9%25EA%25EB%25EC%25ED%25EE%25EF" ++
  "%25F0%25F1%25F2%25F3%25F4%25F5%25F6%25F7" ++
  "%25F8%25F9%25FA%25FB%25FC%25FD%25FE%25FF")

/-- `double_encode_byte` from `query_builder.rs`: the 5-byte slice
`ENCODE[b*5..(b+1)*5]` of the constant table. -/
def double_encode_byte (b : Nat) : List Nat :=
  (DOUBLE_ENCODE_TABLE.drop (b * 5)).take 5

/-- Modelled from the spec: the trailing-`\r` trim of `util::Lines`
(`util.rs` is not under `src/`): "trimming one trailing CR if present". -/
def trimCr (l : List Nat) : List Nat :=
  match l.getLast? with
  | some 13 => l.dropLast
  | _ => l

/-- Modelled from the spec: the line extraction of `util::Lines` (`util.rs`
is not under `src/`): repeatedly extract the longest prefix up to (and
excluding) the next LF, trim one trailing CR, and drop any unterminated
trailing buffer content at exhaustion. -/
def splitLinesAux : List Nat → List Nat → List (List Nat)
  | _, [] => []
  | acc, 10 :: rest => trimCr acc.reverse :: splitLinesAux [] rest
  | acc, b :: rest => splitLinesAux (b :: acc) rest

/-- Modelled from the spec: the complete line sequence that `util::Lines`
yields for a body byte stream. -/
def splitLines (bs : List Nat) : List (List Nat) := splitLinesAux [] bs

/-- The whitespace test of `TwitterStream::poll` in `lib.rs`: the line
consists only of LF, CR, space or tab bytes. -/
def isAllWs (l : List Nat) : Bool :=
  l.all fun c => c == 10 || c == 13 || c == 32 || c == 9

/-- Test for a UTF-8 continuation byte (`0x80..=0xBF`). -/
def contB (c : Nat) : Bool := 128 ≤ c && c ≤ 191

/-- Modelled from the spec: `JsonStr::from_utf8` (`types.rs` is not under
`src/`) validates the line "as UTF-8 text"; this is standard UTF-8 validity
(as in Rust `String::from_utf8`), excluding overlong forms, surrogates and
code points above `U+10FFFF`. -/
def validUtf8 : List Nat → Bool
  | [] => true
  | b :: rest =>
    if b ≤ 127 then validUtf8 rest
    else if 194 ≤ b && b ≤ 223 then
      match rest with
      | c1 :: r => contB c1 && validUtf8 r
      | [] => false
    else if b = 224 then
      match rest with
      | c1 :: c2 :: r => (160 ≤ c1 && c1 ≤ 191) && contB c2 && validUtf8 r
      | _ => false
    else if (225 ≤ b && b ≤ 236) || b = 238 || b = 239 then
      match rest with
      | c1 :: c2 :: r => contB c1 && contB c2 && validUtf8 r
      | _ => false
    else if b = 237 then
      match rest with
      | c1 :: c2 :: r => (128 ≤ c1 && c1 ≤ 159) && contB c2 && validUtf8 r
      | _ => false
    else if b = 240 then
      match rest with
      | c1 :: c2 :: c3 :: r =>
        (144 ≤ c1 && c1 ≤ 191) && contB c2 && contB c3 && validUtf8 r
      | _ => false
    else if 241 ≤ b && b ≤ 243 then
      match rest with
      | c1 :: c2 :: c3 :: r => contB c1 && contB c2 && contB c3 && validUtf8 r
      | _ => false
    else if b = 244 then
      match rest with
      | c1 :: c2 :: c3 :: r =>
        (128 ≤ c1 && c1 ≤ 143) && contB c2 && contB c3 && validUtf8 r
      | _ => false
    else false

/-- Outcome of one `TwitterStream::poll` call (`lib.rs`). -/
inductive StreamPollOut
  | msg (m : List Nat)
  | done
  | utf8Error (l : List Nat)
deriving DecidableEq

/-- `TwitterStream::poll` from `lib.rs`, over the sequence of lines still
pending from the inner `Lines` stream: loop; a whitespace-only line is
skipped, a non-blank line is UTF-8-validated and either yielded or surfaced
as a `Error::Utf8` error; exhaustion yields `done`. Returns the poll outcome
and the lines remaining afterwards. -/
def streamPollLines : List (List Nat) → StreamPollOut × List (List Nat)
  | [] => (.done, [])
  | l :: ls =>
    if isAllWs l then streamPollLines ls
    else if validUtf8 l then (.msg l, ls) else (.utf8Error l, ls)

/-- Repeatedly poll `TwitterStream` (`streamPollLines`) until exhaustion or
the first error: the yielded messages and the optional erroring line. -/
def drainLines : List (List Nat) → List (List Nat) × Option (List Nat)
  | [] => ([], none)
  | l :: ls =>
    if isAllWs l then drainLines ls
    else if validUtf8 l then
      let p := drainLines ls
      (l :: p.1, p.2)
    else ([], some l)

/-- State of the `resp` future inside `FutureTwitterStream::poll`. -/
inductive RespPoll
  | ready (status : Nat) (body : List Nat)
  | notReady

/-- Outcome of one `FutureTwitterStream::poll` call (`lib.rs`): `stream`
carries the line sequence the produced `TwitterStream` will read. -/
inductive FuturePollOut
  | stream (lines : List (List Nat))
  | notReady
  | errHttp (status : Nat)
  | errTimedOut
deriving DecidableEq

/-- `FutureTwitterStream::poll` from `lib.rs` (the path where the inner
connector succeeded): a ready response with status other than 200 fails with
`Error::Http(status)`; a 200 response produces the `TwitterStream` over the
body; while not ready, a fired timeout fails with `Error::TimedOut`. -/
def futureTwitterStreamPoll (resp : RespPoll) (timerFired : Bool) : FuturePollOut :=
  match resp with
  | .ready status body =>
    if 200 ≠ status then .errHttp status
    else .stream (splitLines body)
  | .notReady => if timerFired then .errTimedOut else .notReady

/-- `types::FilterLevel` as used by `build_query` (`types.rs` is not under
`src/`; only the comparison with `FilterLevel::None` matters here). -/
inductive FilterLevel
  | none
  | low
  | medium
deriving DecidableEq

/-- The optional-parameter settings of `TwitterStreamBuilder` consumed by
`build_query` (`lib.rs`). `locations` carries the rendered coordinate text
(the `f64` formatting itself is opaque to the key-order property). -/
structure BuilderSettings where
  count : Option Int
  filter_level : FilterLevel
  follow : Option (List Nat)
  language : Option (List Nat)
  locations : Option (List Nat)
  replies : Bool
  stall_warnings : Bool
  track : Option (List Nat)
  with_ : Option (List Nat)

/-- The sequence of `(key, is_last)` pairs of the `append` calls issued by
`TwitterStreamBuilder::build_query` (`lib.rs` lines 566-638), in source
order; `append_oauth_params` is expanded to its six per-key header appends
with the flags used in `QueryBuilder::append_oauth_params_`. -/
def build_query_calls (s : BuilderSettings) : List (List Nat × Bool) :=
  (if s.count.isSome then [(strBytes "count", false)] else []) ++
  (if s.filter_level ≠ .none then [(strBytes "filter_level", false)] else []) ++
  (if s.follow.isSome then [(strBytes "follow", false)] else []) ++
  (if s.language.isSome then [(strBytes "language", false)] else []) ++
  (if s.locations.isSome then [(strBytes "locations", false)] else []) ++
  [(strBytes "oauth_consumer_key", false), (strBytes "oauth_nonce", false),
   (strBytes "oauth_signature_method", false), (strBytes "oauth_timestamp", false),
   (strBytes "oauth_token", false),
   (strBytes "oauth_version",
    !(s.replies || s.stall_warnings || s.track.isSome || s.with_.isSome))] ++
  (if s.replies then
    [(strBytes "replies", !(s.stall_warnings || s.track.isSome || s.with_.isSome))]
   else []) ++
  (if s.stall_warnings then
    [(strBytes "stall_warnings", !(s.track.isSome || s.with_.isSome))]
   else []) ++
  (if s.track.isSome then [(strBytes "track", !s.with_.isSome)] else []) ++
  (if s.with_.isSome then [(strBytes "with", true)] else [])

/-- Decimal digit bytes of a natural number (Rust `Display` for `u64`,
used for `oauth_timestamp` and the base-10 rendering of counters). -/
def decDigitsGo : Nat → Nat → List Nat
  | 0, _ => []
  | fuel + 1, n => if n < 10 then [48 + n] else decDigitsGo fuel (n / 10) ++ [48 + n % 10]

/-- Decimal rendering entry point. -/
def decDigits (n : Nat) : List Nat := decDigitsGo (n + 1) n

/-- A `hyper::Uri` restricted to what `query_builder.rs` reads: scheme,
authority and path (the endpoints used have no query part). -/
structure Uri where
  scheme : List Nat
  authority : List Nat
  path : List Nat

/-- Rust `uri.to_string()` for a `Uri` with no query part. -/
def uriToString (u : Uri) : List Nat :=
  u.scheme ++ strBytes "://" ++ u.authority ++ u.path

/-- The `PercentEncodeUri` display in `QueryBuilder::new_`: scheme, a
literal `%3A%2F%2F`, the percent-encoded authority, the percent-encoded
path; the query part is not used. -/
def percentEncodeUri (u : Uri) : List Nat :=
  u.scheme ++ strBytes "%3A%2F%2F" ++ percent_encode u.authority ++ percent_encode u.path

/-- The `.iter().enumerate().skip(1).find(|b| EncodeSet.contains(b))` scan
of `DoublePercentEncode`: first index (counting from `start`) and byte in
`bs` that must be encoded. -/
def findEncoded : Nat → List Nat → Option (Nat × Nat)
  | _, [] => none
  | i, b :: rest => if encodeSetContains b then some (i, b) else findEncoded (i + 1) rest

/-- Loop body of the `DoublePercentEncode` display in `query_builder.rs`,
with fuel (each iteration consumes at least one byte, so `bs.length` fuel
suffices): an encoded head byte is written via `double_encode_byte`,
otherwise the longest unencoded run is copied verbatim. -/
def doublePercentEncodeGo : Nat → List Nat → List Nat
  | 0, _ => []
  | _, [] => []
  | fuel + 1, b :: rem =>
    if encodeSetContains b then
      double_encode_byte b ++ doublePercentEncodeGo fuel rem
    else
      match findEncoded 1 rem with
      | some (i, c) =>
        (b :: rem).take i ++ double_encode_byte c ++
          doublePercentEncodeGo fuel ((b :: rem).drop (i + 1))
      | none => b :: rem

/-- The `DoublePercentEncode` display in `query_builder.rs`. -/
def doublePercentEncode (bs : List Nat) : List Nat := doublePercentEncodeGo bs.length bs

/-- Split a byte list into chunks of `n` bytes (fuel-based; used for the
64-byte SHA-1 blocks and the 4-byte words). -/
def chunksOfGo (n : Nat) : Nat → List Nat → List (List Nat)
  | 0, _ => []
  | _, [] => []
  | fuel + 1, bs => bs.take n :: chunksOfGo n fuel (bs.drop n)

/-- Chunking entry point. -/
def chunksOf (n : Nat) (bs : List Nat) : List (List Nat) := chunksOfGo n bs.length bs

/-- Big-endian byte rendering of a value in `n` bytes. -/
def beBytes (n v : Nat) : List Nat :=
  (List.range n).map fun i => (v >>> (8 * (n - 1 - i))) &&& 255

/-- Truncation to 32 bits. -/
def u32 (n : Nat) : Nat := n % 4294967296

/-- 32-bit left rotation (operand already below `2 ^ 32`). -/
def rotl32 (x n : Nat) : Nat := ((x <<< n) % 4294967296) ||| (x >>> (32 - n))

/-- One SHA-1 round: state is `(a, b, c, d, e)` plus the rolling window of
the 16 most recent schedule words (most recent first). -/
def sha1Round (block : List Nat) (st : Nat × Nat × Nat × Nat × Nat × List Nat)
    (i : Nat) : Nat × Nat × Nat × Nat × Nat × List Nat :=
  match st with
  | (a, b, c, d, e, w) =>
    let wi := if i < 16 then block.getD i 0
      else rotl32 ((w.getD 2 0) ^^^ (w.getD 7 0) ^^^ (w.getD 13 0) ^^^ (w.getD 15 0)) 1
    let f := if i < 20 then (b &&& c) ||| ((4294967295 ^^^ b) &&& d)
      else if i < 40 then b ^^^ c ^^^ d
      else if i < 60 then (b &&& c) ||| (b &&& d) ||| (c &&& d)
      else b ^^^ c ^^^ d
    let k := if i < 20 then 0x5A827999
      else if i < 40 then 0x6ED9EBA1
      else if i < 60 then 0x8F1BBCDC
      else 0xCA62C1D6
    let temp := u32 (rotl32 a 5 + f + e + k + wi)
    (temp, a, rotl32 b 30, c, d, (wi :: w).take 16)

/-- SHA-1 compression of one 16-word block into the 5-word state. -/
def sha1Block (h : List Nat) (block : List Nat) : List Nat :=
  let r := (List.range 80).foldl (sha1Round block)
    (h.getD 0 0, h.getD 1 0, h.getD 2 0, h.getD 3 0, h.getD 4 0, [])
  match r with
  | (a, b, c, d, e, _) =>
    [u32 (h.getD 0 0 + a), u32 (h.getD 1 0 + b), u32 (h.getD 2 0 + c),
     u32 (h.getD 3 0 + d), u32 (h.getD 4 0 + e)]

/-- SHA-1 of a byte message (the `sha1` crate behind `Hmac<Sha1>` in
`query_builder.rs`): standard padding, block compression, 20-byte digest. -/
def sha1 (msg : List Nat) : List Nat :=
  let l := msg.length
  let padded := msg ++ 128 :: List.replicate ((119 - l % 64) % 64) 0 ++ beBytes 8 (8 * l)
  let blocks := (chunksOf 64 padded).map fun blk =>
    (chunksOf 4 blk).map fun c => c.foldl (fun a x => a * 256 + x) 0
  let h := blocks.foldl sha1Block
    [0x67452301, 0xEFCDAB89, 0x98BADCFE, 0x10325476, 0xC3D2E1F0]
  h.flatMap (beBytes 4)

/-- HMAC-SHA1 (the `hmac` crate used via `Hmac::new_varkey` in
`query_builder.rs`): a key longer than the 64-byte block is hashed first,
then zero-padded; inner pad `0x36`, outer pad `0x5C`. -/
def hmacSha1 (key msg : List Nat) : List Nat :=
  let k0 := if 64 < key.length then sha1 key else key
  let k := k0 ++ List.replicate (64 - k0.length) 0
  sha1 ((k.map fun b => b ^^^ 92) ++ sha1 ((k.map fun b => b ^^^ 54) ++ msg))

/-- `byteorder::BigEndian::read_u128`: the first 16 bytes as a big-endian
number. -/
def readU128 (bs : List Nat) : Nat := (bs.take 16).foldl (fun a b => a * 256 + b) 0

/-- `byteorder::BigEndian::read_u64`: the first 8 bytes as a big-endian
number. -/
def readU64 (bs : List Nat) : Nat := (bs.take 8).foldl (fun a b => a * 256 + b) 0

/-- The 64-entry `ENCODE` table of the `Base64PercentEncode` display in
`query_builder.rs`: sextets 0-61 are the single base64 alphabet characters
`A-Z`, `a-z`, `0-9`; sextet 62 is `%2B` and sextet 63 is `%2F`. -/
def B64ENCODE (i : Nat) : List Nat :=
  if i < 26 then [65 + i]
  else if i < 52 then [97 + (i - 26)]
  else if i < 62 then [48 + (i - 52)]
  else if i = 62 then strBytes "%2B"
  else strBytes "%2F"

/-- The `Base64PercentEncode` display in `query_builder.rs` for a 20-byte
digest: 16 sextets from the big-endian `u128` of bytes 0-15 (shifts
`128 - 6 - 6 * i`), 10 sextets from the big-endian `u64` of bytes 12-19
(shifts `64 - 6 - 6 * i`), one sextet from `(u64 << 2) & 63` (the shift is
`u64` arithmetic, hence the `% 2 ^ 64`), then the encoded padding `%3D`.
The loops are unrolled as in the macro-expanded source. -/
def base64PercentEncode (s : List Nat) : List Nat :=
  let n1 := readU128 s
  let n2 := readU64 (s.drop 12)
  B64ENCODE ((n1 >>> 122) &&& 63) ++ B64ENCODE ((n1 >>> 116) &&& 63) ++
  B64ENCODE ((n1 >>> 110) &&& 63) ++ B64ENCODE ((n1 >>> 104) &&& 63) ++
  B64ENCODE ((n1 >>> 98) &&& 63) ++ B64ENCODE ((n1 >>> 92) &&& 63) ++
  B64ENCODE ((n1 >>> 86) &&& 63) ++ B64ENCODE ((n1 >>> 80) &&& 63) ++
  B64ENCODE ((n1 >>> 74) &&& 63) ++ B64ENCODE ((n1 >>> 68) &&& 63) ++
  B64ENCODE ((n1 >>> 62) &&& 63) ++ B64ENCODE ((n1 >>> 56) &&& 63) ++
  B64ENCODE ((n1 >>> 50) &&& 63) ++ B64ENCODE ((n1 >>> 44) &&& 63) ++
  B64ENCODE ((n1 >>> 38) &&& 63) ++ B64ENCODE ((n1 >>> 32) &&& 63) ++
  B64ENCODE ((n2 >>> 58) &&& 63) ++ B64ENCODE ((n2 >>> 52) &&& 63) ++
  B64ENCODE ((n2 >>> 46) &&& 63) ++ B64ENCODE ((n2 >>> 40) &&& 63) ++
  B64ENCODE ((n2 >>> 34) &&& 63) ++ B64ENCODE ((n2 >>> 28) &&& 63) ++
  B64ENCODE ((n2 >>> 22) &&& 63) ++ B64ENCODE ((n2 >>> 16) &&& 63) ++
  B64ENCODE ((n2 >>> 10) &&& 63) ++ B64ENCODE ((n2 >>> 4) &&& 63) ++
  B64ENCODE (((n2 <<< 2) % 18446744073709551616) &&& 63) ++ strBytes "%3D"

/-- The `QueryBuilder` state from `query_builder.rs`. `macKey` and
`macInput` model the running `Hmac<Sha1>` (`MacWrite`): the signing key and
the byte sequence fed so far. `prev_key` is the `debug_assertions` field. -/
structure QueryBuilder where
  header : List Nat
  query : List Nat
  macKey : List Nat
  macInput : List Nat
  will_append_question_mark : Bool
  prev_key : List Nat
deriving DecidableEq

namespace QueryBuilder

/-- `QueryBuilder::new_` from `query_builder.rs`: header primed with
`OAuth `, HMAC keyed with `percent_encode(cs) & percent_encode(as)`, digest
primed with `METHOD&percent-encoded-uri&`, query primed with the URI text
when building a query string. -/
def new_ (cs as_ method : List Nat) (uri : Uri) (q : Bool) : QueryBuilder :=
  { header := strBytes "OAuth "
    query := if q then uriToString uri else []
    macKey := percent_encode cs ++ [38] ++ percent_encode as_
    macInput := method ++ [38] ++ percentEncodeUri uri ++ [38]
    will_append_question_mark := q
    prev_key := [] }

/-- `QueryBuilder::new`: appends a query string to the URI. -/
def new (cs as_ method : List Nat) (uri : Uri) : QueryBuilder :=
  new_ cs as_ method uri true

/-- `QueryBuilder::new_form`: builds an x-www-form-urlencoded string. -/
def new_form (cs as_ method : List Nat) (uri : Uri) : QueryBuilder :=
  new_ cs as_ method uri false

/-- `QueryBuilder::check_dictionary_order` (debug builds): the new key must
be strictly greater than the previously appended key in byte order. -/
def check_dictionary_order (qb : QueryBuilder) (k : List Nat) : Bool :=
  listLt qb.prev_key k

/-- `QueryBuilder::append_question_mark`: emit the pending `?` into the
query, once. -/
def append_question_mark (qb : QueryBuilder) : QueryBuilder :=
  if qb.will_append_question_mark then
    { qb with query := qb.query ++ [63], will_append_question_mark := false }
  else qb

/-- `QueryBuilder::mac_input`: feed `k%3Ddouble-percent-encoded-v` to the
digest, plus `%26` unless last. -/
def mac_input (qb : QueryBuilder) (k v : List Nat) (end_ : Bool) : QueryBuilder :=
  let qb := { qb with
    macInput := qb.macInput ++ k ++ strBytes "%3D" ++ doublePercentEncode v }
  if !end_ then { qb with macInput := qb.macInput ++ strBytes "%26" } else qb

/-- `QueryBuilder::mac_input_encoded`: like `mac_input` but `w` is already
doubly encoded by the caller. -/
def mac_input_encoded (qb : QueryBuilder) (k w : List Nat) (end_ : Bool) : QueryBuilder :=
  let qb := { qb with macInput := qb.macInput ++ k ++ strBytes "%3D" ++ w }
  if !end_ then { qb with macInput := qb.macInput ++ strBytes "%26" } else qb

/-- `QueryBuilder::append` from `query_builder.rs`; the failed debug
assertion (panic) is `none`. -/
def append (qb : QueryBuilder) (k v : List Nat) (end_ : Bool) : Option QueryBuilder :=
  if qb.check_dictionary_order k then
    let qb := { qb with prev_key := k }
    let qb := qb.append_question_mark
    let qb := { qb with query := qb.query ++ k ++ [61] ++ percent_encode v }
    let qb := qb.mac_input k v end_
    some (if !end_ then { qb with query := qb.query ++ [38] } else qb)
  else none

/-- `QueryBuilder::append_encoded`: `v` is the pre-encoded display value,
`w` the pre-doubly-encoded signature value. -/
def append_encoded (qb : QueryBuilder) (k v w : List Nat) (end_ : Bool) :
    Option QueryBuilder :=
  if qb.check_dictionary_order k then
    let qb := { qb with prev_key := k }
    let qb := qb.append_question_mark
    let qb := { qb with query := qb.query ++ k ++ [61] ++ v }
    let qb := qb.mac_input_encoded k w end_
    some (if !end_ then { qb with query := qb.query ++ [38] } else qb)
  else none

/-- `QueryBuilder::append_to_header`: `k="percent_encode(v)",` into the
header plus the digest input. -/
def append_to_header (qb : QueryBuilder) (k v : List Nat) (end_ : Bool) :
    Option QueryBuilder :=
  if qb.check_dictionary_order k then
    let qb := { qb with prev_key := k }
    let qb := { qb with
      header := qb.header ++ k ++ [61, 34] ++ percent_encode v ++ [34, 44] }
    some (qb.mac_input k v end_)
  else none

/-- `QueryBuilder::append_to_header_encoded`: like `append_to_header` for a
value that needs no encoding. -/
def append_to_header_encoded (qb : QueryBuilder) (k v : List Nat) (end_ : Bool) :
    Option QueryBuilder :=
  if qb.check_dictionary_order k then
    let qb := { qb with prev_key := k }
    let qb := { qb with header := qb.header ++ k ++ [61, 34] ++ v ++ [34, 44] }
    some (qb.mac_input_encoded k v end_)
  else none

/-- `QueryBuilder::append_oauth_params_` from `query_builder.rs`: emit the
pending `?`, then the six OAuth parameters to the header in fixed order. -/
def append_oauth_params_ (qb : QueryBuilder) (ck ak nonce : List Nat)
    (timestamp : Nat) (end_ : Bool) : Option QueryBuilder :=
  let qb := qb.append_question_mark
  (qb.append_to_header (strBytes "oauth_consumer_key") ck false).bind fun qb =>
  (qb.append_to_header_encoded (strBytes "oauth_nonce") nonce false).bind fun qb =>
  (qb.append_to_header_encoded (strBytes "oauth_signature_method")
      (strBytes "HMAC-SHA1") false).bind fun qb =>
  (qb.append_to_header_encoded (strBytes "oauth_timestamp")
      (decDigits timestamp) false).bind fun qb =>
  (qb.append_to_header (strBytes "oauth_token") ak false).bind fun qb =>
  qb.append_to_header_encoded (strBytes "oauth_version") (strBytes "1.0") end_

/-- `QueryBuilder::build` from `query_builder.rs`: run the HMAC-SHA1,
append `oauth_signature="<base64-percent-encoded digest>"` to the header,
return `(header, query)`. -/
def build (qb : QueryBuilder) : List Nat × List Nat :=
  let s := hmacSha1 qb.macKey qb.macInput
  (qb.header ++ strBytes "oauth_signature=\"" ++ base64PercentEncode s ++ [34],
   qb.query)

end QueryBuilder

/-- Spec-words reference definition for the `Base64SignatureEncoder`
contract (spec section 4.2): standard RFC 4648 base64 with `=` padding, to
be compared against `base64PercentEncode`. -/
def b64char (n : Nat) : Nat :=
  if n < 26 then 65 + n
  else if n < 52 then 97 + (n - 26)
  else if n < 62 then 48 + (n - 52)
  else if n = 62 then 43
  else 47

/-- Spec-words reference definition: standard base64 of a byte list. -/
def standardBase64 : List Nat → List Nat
  | b0 :: b1 :: b2 :: b3 :: rest =>
    b64char (b0 / 4) :: b64char ((b0 % 4) * 16 + b1 / 16) ::
      b64char ((b1 % 16) * 4 + b2 / 64) :: b64char (b2 % 64) :: standardBase64 (b3 :: rest)
  | [b0, b1, b2] =>
    [b64char (b0 / 4), b64char ((b0 % 4) * 16 + b1 / 16),
     b64char ((b1 % 16) * 4 + b2 / 64), b64char (b2 % 64)]
  | [b0, b1] =>
    [b64char (b0 / 4), b64char ((b0 % 4) * 16 + b1 / 16), b64char ((b1 % 16) * 4), 61]
  | [b0] => [b64char (b0 / 4), b64char ((b0 % 4) * 16), 61, 61]
  | [] => []

/-- Twitter's documented consumer secret (`tests::CS`). -/
def testCS : List Nat := strBytes "kAcSOqF21Fu85e7zjz7ZN2U4ZRhfV3WpwPAoE3Z7kBw"

/-- Twitter's documented access secret (`tests::AS`). -/
def testAS : List Nat := strBytes "LswwdoUaIvS8ltyTt5jkRh4J50vUPVVHtR2YPi5kE"

/-- Twitter's documented consumer key (`tests::CK`). -/
def testCK : List Nat := strBytes "xvz1evFS4wEEPTGEFPHBog"

/-- Twitter's documented access key (`tests::AK`). -/
def testAK : List Nat := strBytes "370773112-GmHxMAgYyLbNEtIKZeRNFsMKPR9EyMZeS9weJAEb"

/-- The fixed nonce of the published vector (`tests::NONCE`). -/
def testNonce : List Nat := strBytes "kYjzVBB8Y0ZFabxSWbWovY3uYSQ2pTgmZeNu2VS4cg"

/-- The fixed timestamp of the published vector (`tests::TIMESTAMP`). -/
def testTimestamp : Nat := 1318622958

/-- The sample-stream endpoint
`https://stream.twitter.com/1.1/statuses/sample.json`. -/
def sampleUri : Uri :=
  { scheme := strBytes "https", authority := strBytes "stream.twitter.com",
    path := strBytes "/1.1/statuses/sample.json" }

/-- The call sequence of `tests::query_builder`: `new` (GET, query mode),
`append_oauth_params_` with the fixed nonce and timestamp, a final
`stall_warnings=true` via `append_encoded`, then `build`. -/
def c1Outcome : Option (List Nat × List Nat) :=
  ((QueryBuilder.new testCS testAS (strBytes "GET") sampleUri).append_oauth_params_
      testCK testAK testNonce testTimestamp false).bind fun qb =>
  (qb.append_encoded (strBytes "stall_warnings") (strBytes "true")
      (strBytes "true") true).bind fun qb =>
  some qb.build

/-- The expected `Authorization` header of the published GET vector. -/
def expectedHeader : List Nat := strBytes
  ("OAuth oauth_consumer_key=\"xvz1evFS4wEEPTGEFPHBog\"," ++
   "oauth_nonce=\"kYjzVBB8Y0ZFabxSWbWovY3uYSQ2pTgmZeNu2VS4cg\"," ++
   "oauth_signature_method=\"HMAC-SHA1\",oauth_timestamp=\"1318622958\"," ++
   "oauth_token=\"370773112-GmHxMAgYyLbNEtIKZeRNFsMKPR9EyMZeS9weJAEb\"," ++
   "oauth_version=\"1.0\",oauth_signature=\"OGQqcy4l5xWBFX7t0DrkP5%2FD0rM%3D\"")

/-- The expected outward URI of the published GET vector. -/
def expectedUri : List Nat :=
  strBytes "https://stream.twitter.com/1.1/statuses/sample.json?stall_warnings=true"

/-- The `(key, is_last)` trace of `build_query` as a function of the nine
presence flags of the optional settings (the keys and flags of
`build_query_calls` depend on the settings only through these). -/
def build_query_flags (c fl fo la lo r st tr w : Bool) : List (List Nat × Bool) :=
  (if c then [(strBytes "count", false)] else []) ++
  (if fl then [(strBytes "filter_level", false)] else []) ++
  (if fo then [(strBytes "follow", false)] else []) ++
  (if la then [(strBytes "language", false)] else []) ++
  (if lo then [(strBytes "locations", false)] else []) ++
  [(strBytes "oauth_consumer_key", false), (strBytes "oauth_nonce", false),
   (strBytes "oauth_signature_method", false), (strBytes "oauth_timestamp", false),
   (strBytes "oauth_token", false),
   (strBytes "oauth_version", !(r || st || tr || w))] ++
  (if r then [(strBytes "replies", !(st || tr || w))] else []) ++
  (if st then [(strBytes "stall_warnings", !(tr || w))] else []) ++
  (if tr then [(strBytes "track", !w)] else []) ++
  (if w then [(strBytes "with", true)] else [])

/-- Boolean check that the keys of a call trace are strictly ascending in
byte order. -/
def ascendingKeys : List (List Nat × Bool) → Bool
  | [] => true
  | [_] => true
  | a :: b :: rest => listLt a.1 b.1 && ascendingKeys (b :: rest)

end TwitterStreams

namespace TwitterStreams

set_option maxRecDepth 100000

/-- C1: for the published GET signature vector (documented secrets, method
GET, the sample-stream endpoint, fixed nonce, fixed timestamp 1318622958,
the six OAuth parameters appended first and `stall_warnings=true` appended
last), `QueryBuilder::build` returns the Authorization header whose
`oauth_signature` value is `OGQqcy4l5xWBFX7t0DrkP5%2FD0rM%3D` and the
outward query string `https://stream.twitter.com/1.1/statuses/sample.json?stall_warnings=true`. -/
theorem query_builder_get_signature_vector :
    c1Outcome = some (expectedHeader, expectedUri) := by
  decide

/-- C3: for every byte value, `double_encode_byte b` equals the single
percent-encoding applied to the percent-encoded form of `b`, i.e. the
five-character string `%25XX` with `XX` the uppercase hex of `b`. -/
theorem double_encode_byte_round_trip :
    ∀ b : Fin 256,
      double_encode_byte b.val = percent_encode (percent_encode_byte b.val) ∧
      double_encode_byte b.val =
        37 :: 50 :: 53 :: [hexDigit (b.val / 16), hexDigit (b.val % 16)] := by
  decide

/-- C5: the signer's encode set escapes exactly the complement of the
unreserved set `A-Z`, `a-z`, `0-9`, `-`, `.`, `_`, `~`, and each escaped
byte is rendered as `%XX` with uppercase hex digits. -/
theorem encode_set_unreserved_complement :
    ∀ b : Fin 256,
      (encodeSetContains b.val = false ↔
        (48 ≤ b.val ∧ b.val ≤ 57) ∨ (65 ≤ b.val ∧ b.val ≤ 90) ∨
        (97 ≤ b.val ∧ b.val ≤ 122) ∨ b.val = 45 ∨ b.val = 46 ∨ b.val = 95 ∨
        b.val = 126) ∧
      (encodeSetContains b.val = true →
        peByte b.val = [37, hexDigit (b.val / 16), hexDigit (b.val % 16)] ∧
        hexDigit (b.val / 16) ∈ strBytes "0123456789ABCDEF" ∧
        hexDigit (b.val % 16) ∈ strBytes "0123456789ABCDEF") := by
  decide

/-- C7: a ready response with any status other than 200 makes
`FutureTwitterStream::poll` fail with `Error::Http` carrying exactly that
status, and no `TwitterStream` is produced. -/
theorem non_200_yields_http_error (status : Nat) (body : List Nat) (fired : Bool)
    (h : status ≠ 200) :
    futureTwitterStreamPoll (.ready status body) fired = .errHttp status ∧
    ∀ ls, futureTwitterStreamPoll (.ready status body) fired ≠ .stream ls := by
  have h2 : (200 : Nat) ≠ status := fun e => h e.symm
  refine ⟨?_, ?_⟩
  · simp [futureTwitterStreamPoll, h2]
  · intro ls
    simp [futureTwitterStreamPoll, h2]

/-- Witness for C7 at the concrete status 404. -/
theorem non_200_yields_http_error_witness :
    (404 : Nat) ≠ 200 ∧
    (futureTwitterStreamPoll (.ready 404 []) false = .errHttp 404 ∧
     ∀ ls, futureTwitterStreamPoll (.ready 404 []) false ≠ .stream ls) :=
  ⟨by decide, non_200_yields_http_error 404 [] false (by decide)⟩

/-- C9, counterexample: after a UTF-8 decoding error the stream is not
terminated — polling again yields the following valid line as a message.
The first poll on the two pending lines `[0xFF]` and `{"b":2}` returns the
UTF-8 error, and the next poll returns the message `{"b":2}`. -/
theorem utf8_error_not_terminal_counterexample :
    (streamPollLines [[255], strBytes "\x7b\"b\":2\x7d"]).1 =
      .utf8Error [255] ∧
    (streamPollLines (streamPollLines [[255], strBytes "\x7b\"b\":2\x7d"]).2).1 =
      .msg (strBytes "\x7b\"b\":2\x7d") := by
  decide

/-- C9, amended: when the next pending line is non-blank and not valid
UTF-8, `TwitterStream::poll` surfaces a UTF-8 decoding error for that line;
the stream is not otherwise terminated — the remaining lines stay pending
and are processed by subsequent polls. -/
theorem utf8_error_surfaced_per_message_amended (l : List Nat) (ls : List (List Nat))
    (h1 : isAllWs l = false) (h2 : validUtf8 l = false) :
    streamPollLines (l :: ls) = (.utf8Error l, ls) := by
  simp [streamPollLines, h1, h2]

/-- Witness for the amended C9 at the concrete line `[0xFF]`. -/
theorem utf8_error_surfaced_per_message_amended_witness :
    isAllWs [255] = false ∧ validUtf8 [255] = false ∧
    streamPollLines [[255], [97]] = (.utf8Error [255], [[97]]) :=
  ⟨by decide, by decide,
   utf8_error_surfaced_per_message_amended [255] [[97]] (by decide) (by decide)⟩

/-- `mac_input` only feeds the digest: the query is untouched. -/
theorem mac_input_query (qb : QueryBuilder) (k v : List Nat) (e : Bool) :
    (qb.mac_input k v e).query = qb.query := by
  unfold QueryBuilder.mac_input
  split <;> rfl

/-- `mac_input_encoded` only feeds the digest: the query is untouched. -/
theorem mac_input_encoded_query (qb : QueryBuilder) (k w : List Nat) (e : Bool) :
    (qb.mac_input_encoded k w e).query = qb.query := by
  unfold QueryBuilder.mac_input_encoded
  split <;> rfl

/-- A successful `append_to_header` leaves the query untouched. -/
theorem append_to_header_query (qb qb2 : QueryBuilder) (k v : List Nat) (e : Bool)
    (h : qb.append_to_header k v e = some qb2) : qb2.query = qb.query := by
  unfold QueryBuilder.append_to_header at h
  split at h
  · cases h
    exact mac_input_query _ _ _ _
  · cases h

/-- A successful `append_to_header_encoded` leaves the query untouched. -/
theorem append_to_header_encoded_query (qb qb2 : QueryBuilder) (k v : List Nat)
    (e : Bool) (h : qb.append_to_header_encoded k v e = some qb2) :
    qb2.query = qb.query := by
  unfold QueryBuilder.append_to_header_encoded at h
  split at h
  · cases h
    exact mac_input_encoded_query _ _ _ _
  · cases h

/-- `append_question_mark` appends the pending `?`, if any, to the query. -/
theorem append_question_mark_query (qb : QueryBuilder) :
    qb.append_question_mark.query =
      qb.query ++ (if qb.will_append_question_mark then [63] else []) := by
  unfold QueryBuilder.append_question_mark
  split <;> simp_all

/-- C4, amended: `append_oauth_params_` writes the six OAuth parameters to
the header accumulator only — whenever it succeeds, the outward query/body
string afterwards is the query before the call plus exactly the single
pending `?` separator (emitted by `append_question_mark` when it is still
due), and nothing else. -/
theorem append_oauth_params_query_only (qb : QueryBuilder) (ck ak nonce : List Nat)
    (ts : Nat) (e : Bool) :
    (qb.append_oauth_params_ ck ak nonce ts e).map (fun r => r.query) =
      (qb.append_oauth_params_ ck ak nonce ts e).map
        (fun _ => qb.query ++ (if qb.will_append_question_mark then [63] else [])) := by
  rw [← append_question_mark_query]
  unfold QueryBuilder.append_oauth_params_
  generalize qb.append_question_mark = q2
  cases h1 : q2.append_to_header (strBytes "oauth_consumer_key") ck false with
  | none => simp [h1]
  | some q3 =>
    simp only [h1, Option.bind_eq_bind, Option.some_bind]
    rw [← append_to_header_query _ _ _ _ _ h1]
    cases h2 : q3.append_to_header_encoded (strBytes "oauth_nonce") nonce false with
    | none => simp [h2]
    | some q4 =>
      simp only [h2, Option.some_bind]
      rw [← append_to_header_encoded_query _ _ _ _ _ h2]
      cases h3 : q4.append_to_header_encoded (strBytes "oauth_signature_method")
          (strBytes "HMAC-SHA1") false with
      | none => simp [h3]
      | some q5 =>
        simp only [h3, Option.some_bind]
        rw [← append_to_header_encoded_query _ _ _ _ _ h3]
        cases h4 : q5.append_to_header_encoded (strBytes "oauth_timestamp")
            (decDigits ts) false with
        | none => simp [h4]
        | some q6 =>
          simp only [h4, Option.some_bind]
          rw [← append_to_header_encoded_query _ _ _ _ _ h4]
          cases h5 : q6.append_to_header (strBytes "oauth_token") ak false with
          | none => simp [h5]
          | some q7 =>
            simp only [h5, Option.some_bind]
            rw [← append_to_header_query _ _ _ _ _ h5]
            cases h6 : q7.append_to_header_encoded (strBytes "oauth_version")
                (strBytes "1.0") e with
            | none => simp [h6]
            | some q8 =>
              simp only [h6, Option.map_some']
              rw [append_to_header_encoded_query _ _ _ _ _ h6]

/-- C4, counterexample: on the reachable fresh GET builder of the published
vector, `append_oauth_params_` does change the query field (it emits the
pending `?`), so the claim "the query field holds the same string before
and after the call" fails. -/
theorem append_oauth_params_query_counterexample :
    ((QueryBuilder.new testCS testAS (strBytes "GET") sampleUri).append_oauth_params_
        testCK testAK testNonce testTimestamp false).map (fun r => r.query) ≠
      some (QueryBuilder.new testCS testAS (strBytes "GET") sampleUri).query := by
  decide

/-- `mac_input` does not change the debug `prev_key` field. -/
theorem mac_input_prev (qb : QueryBuilder) (k v : List Nat) (e : Bool) :
    (qb.mac_input k v e).prev_key = qb.prev_key := by
  unfold QueryBuilder.mac_input
  split <;> rfl

/-- `mac_input_encoded` does not change the debug `prev_key` field. -/
theorem mac_input_encoded_prev (qb : QueryBuilder) (k w : List Nat) (e : Bool) :
    (qb.mac_input_encoded k w e).prev_key = qb.prev_key := by
  unfold QueryBuilder.mac_input_encoded
  split <;> rfl

/-- `append_question_mark` does not change the debug `prev_key` field. -/
theorem append_question_mark_prev (qb : QueryBuilder) :
    qb.append_question_mark.prev_key = qb.prev_key := by
  unfold QueryBuilder.append_question_mark
  split <;> rfl

/-- When the dictionary-order check passes, `append_to_header` succeeds and
records the new key as `prev_key`. -/
theorem append_to_header_succeeds (qb : QueryBuilder) (k v : List Nat) (e : Bool)
    (h : qb.check_dictionary_order k = true) :
    ∃ qb2, qb.append_to_header k v e = some qb2 ∧ qb2.prev_key = k := by
  unfold QueryBuilder.append_to_header
  rw [if_pos h]
  exact ⟨_, rfl, mac_input_prev _ _ _ _⟩

/-- When the dictionary-order check passes, `append_to_header_encoded`
succeeds and records the new key as `prev_key`. -/
theorem append_to_header_encoded_succeeds (qb : QueryBuilder) (k v : List Nat)
    (e : Bool) (h : qb.check_dictionary_order k = true) :
    ∃ qb2, qb.append_to_header_encoded k v e = some qb2 ∧ qb2.prev_key = k := by
  unfold QueryBuilder.append_to_header_encoded
  rw [if_pos h]
  exact ⟨_, rfl, mac_input_encoded_prev _ _ _ _⟩

/-- C6: every append operation runs `check_dictionary_order` first, so (in
debug builds, where the check is compiled in) each of `append`,
`append_encoded`, `append_to_header` and `append_to_header_encoded`
succeeds exactly when the new key is strictly greater than the previously
appended key in byte order, and panics (`none`) otherwise; the composite
`append_oauth_params_` succeeds exactly when its first key
`oauth_consumer_key` passes the check, its six internal keys being
mutually ascending. -/
theorem append_dictionary_order_fail_fast :
    (∀ (qb : QueryBuilder) (k v : List Nat) (e : Bool),
      (qb.append k v e).isSome = qb.check_dictionary_order k) ∧
    (∀ (qb : QueryBuilder) (k v w : List Nat) (e : Bool),
      (qb.append_encoded k v w e).isSome = qb.check_dictionary_order k) ∧
    (∀ (qb : QueryBuilder) (k v : List Nat) (e : Bool),
      (qb.append_to_header k v e).isSome = qb.check_dictionary_order k) ∧
    (∀ (qb : QueryBuilder) (k v : List Nat) (e : Bool),
      (qb.append_to_header_encoded k v e).isSome = qb.check_dictionary_order k) ∧
    (∀ (qb : QueryBuilder) (ck ak nonce : List Nat) (ts : Nat) (e : Bool),
      (qb.append_oauth_params_ ck ak nonce ts e).isSome =
        qb.check_dictionary_order (strBytes "oauth_consumer_key")) := by
  refine ⟨?_, ?_, ?_, ?_, ?_⟩
  · intro qb k v e
    by_cases h : qb.check_dictionary_order k <;> simp [QueryBuilder.append, h]
  · intro qb k v w e
    by_cases h : qb.check_dictionary_order k <;> simp [QueryBuilder.append_encoded, h]
  · intro qb k v e
    by_cases h : qb.check_dictionary_order k <;>
      simp [QueryBuilder.append_to_header, h]
  · intro qb k v e
    by_cases h : qb.check_dictionary_order k <;>
      simp [QueryBuilder.append_to_header_encoded, h]
  · intro qb ck ak nonce ts e
    have hq : qb.append_question_mark.check_dictionary_order
        (strBytes "oauth_consumer_key") =
        qb.check_dictionary_order (strBytes "oauth_consumer_key") := by
      unfold QueryBuilder.check_dictionary_order
      rw [append_question_mark_prev]
    rw [QueryBuilder.append_oauth_params_]
    by_cases h : qb.check_dictionary_order (strBytes "oauth_consumer_key")
    case neg =>
      have h0 : qb.append_question_mark.append_to_header
          (strBytes "oauth_consumer_key") ck false = none := by
        unfold QueryBuilder.append_to_header
        rw [if_neg]
        rw [hq]
        simp [h]
      rw [h0]
      simp [h]
    case pos =>
      obtain ⟨q3, e3, p3⟩ := append_to_header_succeeds qb.append_question_mark
        (strBytes "oauth_consumer_key") ck false (hq.trans (by simp [h]) : _)
      obtain ⟨q4, e4, p4⟩ := append_to_header_encoded_succeeds q3
        (strBytes "oauth_nonce") nonce false
        (by unfold QueryBuilder.check_dictionary_order; rw [p3]; decide)
      obtain ⟨q5, e5, p5⟩ := append_to_header_encoded_succeeds q4
        (strBytes "oauth_signature_method") (strBytes "HMAC-SHA1") false
        (by unfold QueryBuilder.check_dictionary_order; rw [p4]; decide)
      obtain ⟨q6, e6, p6⟩ := append_to_header_encoded_succeeds q5
        (strBytes "oauth_timestamp") (decDigits ts) false
        (by unfold QueryBuilder.check_dictionary_order; rw [p5]; decide)
      obtain ⟨q7, e7, p7⟩ := append_to_header_succeeds q6
        (strBytes "oauth_token") ak false
        (by unfold QueryBuilder.check_dictionary_order; rw [p6]; decide)
      obtain ⟨q8, e8, p8⟩ := append_to_header_encoded_succeeds q7
        (strBytes "oauth_version") (strBytes "1.0") e
        (by unfold QueryBuilder.check_dictionary_order; rw [p7]; decide)
      rw [e3]
      simp only [Option.bind_eq_bind, Option.some_bind]
      rw [e4]
      simp only [Option.some_bind]
      rw [e5]
      simp only [Option.some_bind]
      rw [e6]
      simp only [Option.some_bind]
      rw [e7]
      simp only [Option.some_bind]
      rw [e8]
      simp [h]

/-- C8: every whitespace-only line (including the empty line) is discarded
as a heartbeat and never surfaced, while non-blank lines are yielded in
arrival order (up to the first invalid line, where polling surfaces an
error instead); in particular the body consisting of a blank line, the line
`{"a":1}`, a whitespace-only line and the line `{"b":2}` yields exactly the
two messages `{"a":1}` and `{"b":2}`, in order. -/
theorem heartbeat_suppression :
    (∀ ls : List (List Nat),
      (drainLines ls).1 = (ls.filter (fun l => !isAllWs l)).takeWhile validUtf8) ∧
    drainLines (splitLines (strBytes "\n\n\x7b\"a\":1\x7d\n   \n\x7b\"b\":2\x7d\n")) =
      ([strBytes "\x7b\"a\":1\x7d", strBytes "\x7b\"b\":2\x7d"], none) := by
  constructor
  · intro ls
    induction ls with
    | nil => rfl
    | cons l ls ih =>
      by_cases h : isAllWs l
      · simp [drainLines, h, ih]
      · by_cases h2 : validUtf8 l
        · simp [drainLines, h, h2, List.takeWhile, ih]
        · simp [drainLines, h, h2, List.takeWhile]
  · decide

/-- The trace of `build_query` depends on the settings only through the
nine presence flags. -/
theorem build_query_calls_eq_flags (s : BuilderSettings) :
    build_query_calls s = build_query_flags s.count.isSome
      (decide (s.filter_level ≠ .none)) s.follow.isSome s.language.isSome
      s.locations.isSome s.replies s.stall_warnings s.track.isSome s.with_.isSome := by
  obtain ⟨c, fl, fo, la, lo, r, st, tr, w⟩ := s
  cases fl <;> rfl

/-- `ascendingKeys` decides the `Chain'` strict-ascending-key property. -/
theorem ascendingKeys_iff (l : List (List Nat × Bool)) :
    ascendingKeys l = true ↔ List.Chain' (fun a b => listLt a.1 b.1 = true) l := by
  induction l with
  | nil => simp [ascendingKeys]
  | cons a l ih =>
    cases l with
    | nil => simp [ascendingKeys]
    | cons b rest =>
      rw [ascendingKeys, List.chain'_cons, Bool.and_eq_true, ih]

/-- Exhaustive check of the trace over all presence-flag combinations. -/
theorem build_query_flags_ok :
    ∀ c fl fo la lo r st tr w : Bool,
      ascendingKeys (build_query_flags c fl fo la lo r st tr w) = true ∧
      (build_query_flags c fl fo la lo r st tr w).map Prod.snd =
        List.replicate ((build_query_flags c fl fo la lo r st tr w).length - 1)
          false ++ [true] := by
  decide

/-- C10: for every combination of the optional builder settings, the append
calls issued by `build_query` present keys in strictly ascending byte order
and exactly the final call of the sequence carries the is-last flag
`true` (all earlier calls carry `false`). -/
theorem build_query_ascending_keys_last_flag (s : BuilderSettings) :
    List.Chain' (fun a b => listLt a.1 b.1 = true) (build_query_calls s) ∧
    (build_query_calls s).map Prod.snd =
      List.replicate ((build_query_calls s).length - 1) false ++ [true] := by
  rw [build_query_calls_eq_flags]
  exact ⟨(ascendingKeys_iff _).mp (build_query_flags_ok _ _ _ _ _ _ _ _ _).1,
    (build_query_flags_ok _ _ _ _ _ _ _ _ _).2⟩

/-- Sextet extraction facts for the base64 contract (one per output
character of `Base64PercentEncode`). -/
theorem sx0 (b0 b1 b2 b3 b4 b5 b6 b7 b8 b9 b10 b11 b12 b13 b14 b15 : Nat) (h0 : b0 < 256) (h1 : b1 < 256) (h2 : b2 < 256) (h3 : b3 < 256) (h4 : b4 < 256) (h5 : b5 < 256) (h6 : b6 < 256) (h7 : b7 < 256) (h8 : b8 < 256) (h9 : b9 < 256) (h10 : b10 < 256) (h11 : b11 < 256) (h12 : b12 < 256) (h13 : b13 < 256) (h14 : b14 < 256) (h15 : b15 < 256) :
    (b0 * 2 ^ 120 + b1 * 2 ^ 112 + b2 * 2 ^ 104 + b3 * 2 ^ 96 + b4 * 2 ^ 88 + b5 * 2 ^ 80 + b6 * 2 ^ 72 + b7 * 2 ^ 64 + b8 * 2 ^ 56 + b9 * 2 ^ 48 + b10 * 2 ^ 40 + b11 * 2 ^ 32 + b12 * 2 ^ 24 + b13 * 2 ^ 16 + b14 * 2 ^ 8 + b15) / 2 ^ 122 % 64 = b0 / 4 := by omega

theorem sx1 (b0 b1 b2 b3 b4 b5 b6 b7 b8 b9 b10 b11 b12 b13 b14 b15 : Nat) (h0 : b0 < 256) (h1 : b1 < 256) (h2 : b2 < 256) (h3 : b3 < 256) (h4 : b4 < 256) (h5 : b5 < 256) (h6 : b6 < 256) (h7 : b7 < 256) (h8 : b8 < 256) (h9 : b9 < 256) (h10 : b10 < 256) (h11 : b11 < 256) (h12 : b12 < 256) (h13 : b13 < 256) (h14 : b14 < 256) (h15 : b15 < 256) :
    (b0 * 2 ^ 120 + b1 * 2 ^ 112 + b2 * 2 ^ 104 + b3 * 2 ^ 96 + b4 * 2 ^ 88 + b5 * 2 ^ 80 + b6 * 2 ^ 72 + b7 * 2 ^ 64 + b8 * 2 ^ 56 + b9 * 2 ^ 48 + b10 * 2 ^ 40 + b11 * 2 ^ 32 + b12 * 2 ^ 24 + b13 * 2 ^ 16 + b14 * 2 ^ 8 + b15) / 2 ^ 116 % 64 = (b0 % 4) * 16 + b1 / 16 := by omega

theorem sx2 (b0 b1 b2 b3 b4 b5 b6 b7 b8 b9 b10 b11 b12 b13 b14 b15 : Nat) (h0 : b0 < 256) (h1 : b1 < 256) (h2 : b2 < 256) (h3 : b3 < 256) (h4 : b4 < 256) (h5 : b5 < 256) (h6 : b6 < 256) (h7 : b7 < 256) (h8 : b8 < 256) (h9 : b9 < 256) (h10 : b10 < 256) (h11 : b11 < 256) (h12 : b12 < 256) (h13 : b13 < 256) (h14 : b14 < 256) (h15 : b15 < 256) :
    (b0 * 2 ^ 120 + b1 * 2 ^ 112 + b2 * 2 ^ 104 + b3 * 2 ^ 96 + b4 * 2 ^ 88 + b5 * 2 ^ 80 + b6 * 2 ^ 72 + b7 * 2 ^ 64 + b8 * 2 ^ 56 + b9 * 2 ^ 48 + b10 * 2 ^ 40 + b11 * 2 ^ 32 + b12 * 2 ^ 24 + b13 * 2 ^ 16 + b14 * 2 ^ 8 + b15) / 2 ^ 110 % 64 = (b1 % 16) * 4 + b2 / 64 := by omega

theorem sx3 (b0 b1 b2 b3 b4 b5 b6 b7 b8 b9 b10 b11 b12 b13 b14 b15 : Nat) (h0 : b0 < 256) (h1 : b1 < 256) (h2 : b2 < 256) (h3 : b3 < 256) (h4 : b4 < 256) (h5 : b5 < 256) (h6 : b6 < 256) (h7 : b7 < 256) (h8 : b8 < 256) (h9 : b9 < 256) (h10 : b10 < 256) (h11 : b11 < 256) (h12 : b12 < 256) (h13 : b13 < 256) (h14 : b14 < 256) (h15 : b15 < 256) :
    (b0 * 2 ^ 120 + b1 * 2 ^ 112 + b2 * 2 ^ 104 + b3 * 2 ^ 96 + b4 * 2 ^ 88 + b5 * 2 ^ 80 + b6 * 2 ^ 72 + b7 * 2 ^ 64 + b8 * 2 ^ 56 + b9 * 2 ^ 48 + b10 * 2 ^ 40 + b11 * 2 ^ 32 + b12 * 2 ^ 24 + b13 * 2 ^ 16 + b14 * 2 ^ 8 + b15) / 2 ^ 104 % 64 = b2 % 64 := by omega

theorem sx4 (b0 b1 b2 b3 b4 b5 b6 b7 b8 b9 b10 b11 b12 b13 b14 b15 : Nat) (h0 : b0 < 256) (h1 : b1 < 256) (h2 : b2 < 256) (h3 : b3 < 256) (h4 : b4 < 256) (h5 : b5 < 256) (h6 : b6 < 256) (h7 : b7 < 256) (h8 : b8 < 256) (h9 : b9 < 256) (h10 : b10 < 256) (h11 : b11 < 256) (h12 : b12 < 256) (h13 : b13 < 256) (h14 : b14 < 256) (h15 : b15 < 256) :
    (b0 * 2 ^ 120 + b1 * 2 ^ 112 + b2 * 2 ^ 104 + b3 * 2 ^ 96 + b4 * 2 ^ 88 + b5 * 2 ^ 80 + b6 * 2 ^ 72 + b7 * 2 ^ 64 + b8 * 2 ^ 56 + b9 * 2 ^ 48 + b10 * 2 ^ 40 + b11 * 2 ^ 32 + b12 * 2 ^ 24 + b13 * 2 ^ 16 + b14 * 2 ^ 8 + b15) / 2 ^ 98 % 64 = b3 / 4 := by omega

theorem sx5 (b0 b1 b2 b3 b4 b5 b6 b7 b8 b9 b10 b11 b12 b13 b14 b15 : Nat) (h0 : b0 < 256) (h1 : b1 < 256) (h2 : b2 < 256) (h3 : b3 < 256) (h4 : b4 < 256) (h5 : b5 < 256) (h6 : b6 < 256) (h7 : b7 < 256) (h8 : b8 < 256) (h9 : b9 < 256) (h10 : b10 < 256) (h11 : b11 < 256) (h12 : b12 < 256) (h13 : b13 < 256) (h14 : b14 < 256) (h15 : b15 < 256) :
    (b0 * 2 ^ 120 + b1 * 2 ^ 112 + b2 * 2 ^ 104 + b3 * 2 ^ 96 + b4 * 2 ^ 88 + b5 * 2 ^ 80 + b6 * 2 ^ 72 + b7 * 2 ^ 64 + b8 * 2 ^ 56 + b9 * 2 ^ 48 + b10 * 2 ^ 40 + b11 * 2 ^ 32 + b12 * 2 ^ 24 + b13 * 2 ^ 16 + b14 * 2 ^ 8 + b15) / 2 ^ 92 % 64 = (b3 % 4) * 16 + b4 / 16 := by omega

theorem sx6 (b0 b1 b2 b3 b4 b5 b6 b7 b8 b9 b10 b11 b12 b13 b14 b15 : Nat) (h0 : b0 < 256) (h1 : b1 < 256) (h2 : b2 < 256) (h3 : b3 < 256) (h4 : b4 < 256) (h5 : b5 < 256) (h6 : b6 < 256) (h7 : b7 < 256) (h8 : b8 < 256) (h9 : b9 < 256) (h10 : b10 < 256) (h11 : b11 < 256) (h12 : b12 < 256) (h13 : b13 < 256) (h14 : b14 < 256) (h15 : b15 < 256) :
    (b0 * 2 ^ 120 + b1 * 2 ^ 112 + b2 * 2 ^ 104 + b3 * 2 ^ 96 + b4 * 2 ^ 88 + b5 * 2 ^ 80 + b6 * 2 ^ 72 + b7 * 2 ^ 64 + b8 * 2 ^ 56 + b9 * 2 ^ 48 + b10 * 2 ^ 40 + b11 * 2 ^ 32 + b12 * 2 ^ 24 + b13 * 2 ^ 16 + b14 * 2 ^ 8 + b15) / 2 ^ 86 % 64 = (b4 % 16) * 4 + b5 / 64 := by omega

theorem sx7 (b0 b1 b2 b3 b4 b5 b6 b7 b8 b9 b10 b11 b12 b13 b14 b15 : Nat) (h0 : b0 < 256) (h1 : b1 < 256) (h2 : b2 < 256) (h3 : b3 < 256) (h4 : b4 < 256) (h5 : b5 < 256) (h6 : b6 < 256) (h7 : b7 < 256) (h8 : b8 < 256) (h9 : b9 < 256) (h10 : b10 < 256) (h11 : b11 < 256) (h12 : b12 < 256) (h13 : b13 < 256) (h14 : b14 < 256) (h15 : b15 < 256) :
    (b0 * 2 ^ 120 + b1 * 2 ^ 112 + b2 * 2 ^ 104 + b3 * 2 ^ 96 + b4 * 2 ^ 88 + b5 * 2 ^ 80 + b6 * 2 ^ 72 + b7 * 2 ^ 64 + b8 * 2 ^ 56 + b9 * 2 ^ 48 + b10 * 2 ^ 40 + b11 * 2 ^ 32 + b12 * 2 ^ 24 + b13 * 2 ^ 16 + b14 * 2 ^ 8 + b15) / 2 ^ 80 % 64 = b5 % 64 := by omega

theorem sx8 (b0 b1 b2 b3 b4 b5 b6 b7 b8 b9 b10 b11 b12 b13 b14 b15 : Nat) (h0 : b0 < 256) (h1 : b1 < 256) (h2 : b2 < 256) (h3 : b3 < 256) (h4 : b4 < 256) (h5 : b5 < 256) (h6 : b6 < 256) (h7 : b7 < 256) (h8 : b8 < 256) (h9 : b9 < 256) (h10 : b10 < 256) (h11 : b11 < 256) (h12 : b12 < 256) (h13 : b13 < 256) (h14 : b14 < 256) (h15 : b15 < 256) :
    (b0 * 2 ^ 120 + b1 * 2 ^ 112 + b2 * 2 ^ 104 + b3 * 2 ^ 96 + b4 * 2 ^ 88 + b5 * 2 ^ 80 + b6 * 2 ^ 72 + b7 * 2 ^ 64 + b8 * 2 ^ 56 + b9 * 2 ^ 48 + b10 * 2 ^ 40 + b11 * 2 ^ 32 + b12 * 2 ^ 24 + b13 * 2 ^ 16 + b14 * 2 ^ 8 + b15) / 2 ^ 74 % 64 = b6 / 4 := by omega

theorem sx9 (b0 b1 b2 b3 b4 b5 b6 b7 b8 b9 b10 b11 b12 b13 b14 b15 : Nat) (h0 : b0 < 256) (h1 : b1 < 256) (h2 : b2 < 256) (h3 : b3 < 256) (h4 : b4 < 256) (h5 : b5 < 256) (h6 : b6 < 256) (h7 : b7 < 256) (h8 : b8 < 256) (h9 : b9 < 256) (h10 : b10 < 256) (h11 : b11 < 256) (h12 : b12 < 256) (h13 : b13 < 256) (h14 : b14 < 256) (h15 : b15 < 256) :
    (b0 * 2 ^ 120 + b1 * 2 ^ 112 + b2 * 2 ^ 104 + b3 * 2 ^ 96 + b4 * 2 ^ 88 + b5 * 2 ^ 80 + b6 * 2 ^ 72 + b7 * 2 ^ 64 + b8 * 2 ^ 56 + b9 * 2 ^ 48 + b10 * 2 ^ 40 + b11 * 2 ^ 32 + b12 * 2 ^ 24 + b13 * 2 ^ 16 + b14 * 2 ^ 8 + b15) / 2 ^ 68 % 64 = (b6 % 4) * 16 + b7 / 16 := by omega

theorem sx10 (b0 b1 b2 b3 b4 b5 b6 b7 b8 b9 b10 b11 b12 b13 b14 b15 : Nat) (h0 : b0 < 256) (h1 : b1 < 256) (h2 : b2 < 256) (h3 : b3 < 256) (h4 : b4 < 256) (h5 : b5 < 256) (h6 : b6 < 256) (h7 : b7 < 256) (h8 : b8 < 256) (h9 : b9 < 256) (h10 : b10 < 256) (h11 : b11 < 256) (h12 : b12 < 256) (h13 : b13 < 256) (h14 : b14 < 256) (h15 : b15 < 256) :
    (b0 * 2 ^ 120 + b1 * 2 ^ 112 + b2 * 2 ^ 104 + b3 * 2 ^ 96 + b4 * 2 ^ 88 + b5 * 2 ^ 80 + b6 * 2 ^ 72 + b7 * 2 ^ 64 + b8 * 2 ^ 56 + b9 * 2 ^ 48 + b10 * 2 ^ 40 + b11 * 2 ^ 32 + b12 * 2 ^ 24 + b13 * 2 ^ 16 + b14 * 2 ^ 8 + b15) / 2 ^ 62 % 64 = (b7 % 16) * 4 + b8 / 64 := by omega

theorem sx11 (b0 b1 b2 b3 b4 b5 b6 b7 b8 b9 b10 b11 b12 b13 b14 b15 : Nat) (h0 : b0 < 256) (h1 : b1 < 256) (h2 : b2 < 256) (h3 : b3 < 256) (h4 : b4 < 256) (h5 : b5 < 256) (h6 : b6 < 256) (h7 : b7 < 256) (h8 : b8 < 256) (h9 : b9 < 256) (h10 : b10 < 256) (h11 : b11 < 256) (h12 : b12 < 256) (h13 : b13 < 256) (h14 : b14 < 256) (h15 : b15 < 256) :
    (b0 * 2 ^ 120 + b1 * 2 ^ 112 + b2 * 2 ^ 104 + b3 * 2 ^ 96 + b4 * 2 ^ 88 + b5 * 2 ^ 80 + b6 * 2 ^ 72 + b7 * 2 ^ 64 + b8 * 2 ^ 56 + b9 * 2 ^ 48 + b10 * 2 ^ 40 + b11 * 2 ^ 32 + b12 * 2 ^ 24 + b13 * 2 ^ 16 + b14 * 2 ^ 8 + b15) / 2 ^ 56 % 64 = b8 % 64 := by omega

theorem sx12 (b0 b1 b2 b3 b4 b5 b6 b7 b8 b9 b10 b11 b12 b13 b14 b15 : Nat) (h0 : b0 < 256) (h1 : b1 < 256) (h2 : b2 < 256) (h3 : b3 < 256) (h4 : b4 < 256) (h5 : b5 < 256) (h6 : b6 < 256) (h7 : b7 < 256) (h8 : b8 < 256) (h9 : b9 < 256) (h10 : b10 < 256) (h11 : b11 < 256) (h12 : b12 < 256) (h13 : b13 < 256) (h14 : b14 < 256) (h15 : b15 < 256) :
    (b0 * 2 ^ 120 + b1 * 2 ^ 112 + b2 * 2 ^ 104 + b3 * 2 ^ 96 + b4 * 2 ^ 88 + b5 * 2 ^ 80 + b6 * 2 ^ 72 + b7 * 2 ^ 64 + b8 * 2 ^ 56 + b9 * 2 ^ 48 + b10 * 2 ^ 40 + b11 * 2 ^ 32 + b12 * 2 ^ 24 + b13 * 2 ^ 16 + b14 * 2 ^ 8 + b15) / 2 ^ 50 % 64 = b9 / 4 := by omega

theorem sx13 (b0 b1 b2 b3 b4 b5 b6 b7 b8 b9 b10 b11 b12 b13 b14 b15 : Nat) (h0 : b0 < 256) (h1 : b1 < 256) (h2 : b2 < 256) (h3 : b3 < 256) (h4 : b4 < 256) (h5 : b5 < 256) (h6 : b6 < 256) (h7 : b7 < 256) (h8 : b8 < 256) (h9 : b9 < 256) (h10 : b10 < 256) (h11 : b11 < 256) (h12 : b12 < 256) (h13 : b13 < 256) (h14 : b14 < 256) (h15 : b15 < 256) :
    (b0 * 2 ^ 120 + b1 * 2 ^ 112 + b2 * 2 ^ 104 + b3 * 2 ^ 96 + b4 * 2 ^ 88 + b5 * 2 ^ 80 + b6 * 2 ^ 72 + b7 * 2 ^ 64 + b8 * 2 ^ 56 + b9 * 2 ^ 48 + b10 * 2 ^ 40 + b11 * 2 ^ 32 + b12 * 2 ^ 24 + b13 * 2 ^ 16 + b14 * 2 ^ 8 + b15) / 2 ^ 44 % 64 = (b9 % 4) * 16 + b10 / 16 := by omega

theorem sx14 (b0 b1 b2 b3 b4 b5 b6 b7 b8 b9 b10 b11 b12 b13 b14 b15 : Nat) (h0 : b0 < 256) (h1 : b1 < 256) (h2 : b2 < 256) (h3 : b3 < 256) (h4 : b4 < 256) (h5 : b5 < 256) (h6 : b6 < 256) (h7 : b7 < 256) (h8 : b8 < 256) (h9 : b9 < 256) (h10 : b10 < 256) (h11 : b11 < 256) (h12 : b12 < 256) (h13 : b13 < 256) (h14 : b14 < 256) (h15 : b15 < 256) :
    (b0 * 2 ^ 120 + b1 * 2 ^ 112 + b2 * 2 ^ 104 + b3 * 2 ^ 96 + b4 * 2 ^ 88 + b5 * 2 ^ 80 + b6 * 2 ^ 72 + b7 * 2 ^ 64 + b8 * 2 ^ 56 + b9 * 2 ^ 48 + b10 * 2 ^ 40 + b11 * 2 ^ 32 + b12 * 2 ^ 24 + b13 * 2 ^ 16 + b14 * 2 ^ 8 + b15) / 2 ^ 38 % 64 = (b10 % 16) * 4 + b11 / 64 := by omega

theorem sx15 (b0 b1 b2 b3 b4 b5 b6 b7 b8 b9 b10 b11 b12 b13 b14 b15 : Nat) (h0 : b0 < 256) (h1 : b1 < 256) (h2 : b2 < 256) (h3 : b3 < 256) (h4 : b4 < 256) (h5 : b5 < 256) (h6 : b6 < 256) (h7 : b7 < 256) (h8 : b8 < 256) (h9 : b9 < 256) (h10 : b10 < 256) (h11 : b11 < 256) (h12 : b12 < 256) (h13 : b13 < 256) (h14 : b14 < 256) (h15 : b15 < 256) :
    (b0 * 2 ^ 120 + b1 * 2 ^ 112 + b2 * 2 ^ 104 + b3 * 2 ^ 96 + b4 * 2 ^ 88 + b5 * 2 ^ 80 + b6 * 2 ^ 72 + b7 * 2 ^ 64 + b8 * 2 ^ 56 + b9 * 2 ^ 48 + b10 * 2 ^ 40 + b11 * 2 ^ 32 + b12 * 2 ^ 24 + b13 * 2 ^ 16 + b14 * 2 ^ 8 + b15) / 2 ^ 32 % 64 = b11 % 64 := by omega

theorem sx16 (b12 b13 b14 b15 b16 b17 b18 b19 : Nat) (h12 : b12 < 256) (h13 : b13 < 256) (h14 : b14 < 256) (h15 : b15 < 256) (h16 : b16 < 256) (h17 : b17 < 256) (h18 : b18 < 256) (h19 : b19 < 256) :
    (b12 * 2 ^ 56 + b13 * 2 ^ 48 + b14 * 2 ^ 40 + b15 * 2 ^ 32 + b16 * 2 ^ 24 + b17 * 2 ^ 16 + b18 * 2 ^ 8 + b19) / 2 ^ 58 % 64 = b12 / 4 := by omega

theorem sx17 (b12 b13 b14 b15 b16 b17 b18 b19 : Nat) (h12 : b12 < 256) (h13 : b13 < 256) (h14 : b14 < 256) (h15 : b15 < 256) (h16 : b16 < 256) (h17 : b17 < 256) (h18 : b18 < 256) (h19 : b19 < 256) :
    (b12 * 2 ^ 56 + b13 * 2 ^ 48 + b14 * 2 ^ 40 + b15 * 2 ^ 32 + b16 * 2 ^ 24 + b17 * 2 ^ 16 + b18 * 2 ^ 8 + b19) / 2 ^ 52 % 64 = (b12 % 4) * 16 + b13 / 16 := by omega

theorem sx18 (b12 b13 b14 b15 b16 b17 b18 b19 : Nat) (h12 : b12 < 256) (h13 : b13 < 256) (h14 : b14 < 256) (h15 : b15 < 256) (h16 : b16 < 256) (h17 : b17 < 256) (h18 : b18 < 256) (h19 : b19 < 256) :
    (b12 * 2 ^ 56 + b13 * 2 ^ 48 + b14 * 2 ^ 40 + b15 * 2 ^ 32 + b16 * 2 ^ 24 + b17 * 2 ^ 16 + b18 * 2 ^ 8 + b19) / 2 ^ 46 % 64 = (b13 % 16) * 4 + b14 / 64 := by omega

theorem sx19 (b12 b13 b14 b15 b16 b17 b18 b19 : Nat) (h12 : b12 < 256) (h13 : b13 < 256) (h14 : b14 < 256) (h15 : b15 < 256) (h16 : b16 < 256) (h17 : b17 < 256) (h18 : b18 < 256) (h19 : b19 < 256) :
    (b12 * 2 ^ 56 + b13 * 2 ^ 48 + b14 * 2 ^ 40 + b15 * 2 ^ 32 + b16 * 2 ^ 24 + b17 * 2 ^ 16 + b18 * 2 ^ 8 + b19) / 2 ^ 40 % 64 = b14 % 64 := by omega

theorem sx20 (b12 b13 b14 b15 b16 b17 b18 b19 : Nat) (h12 : b12 < 256) (h13 : b13 < 256) (h14 : b14 < 256) (h15 : b15 < 256) (h16 : b16 < 256) (h17 : b17 < 256) (h18 : b18 < 256) (h19 : b19 < 256) :
    (b12 * 2 ^ 56 + b13 * 2 ^ 48 + b14 * 2 ^ 40 + b15 * 2 ^ 32 + b16 * 2 ^ 24 + b17 * 2 ^ 16 + b18 * 2 ^ 8 + b19) / 2 ^ 34 % 64 = b15 / 4 := by omega

theorem sx21 (b12 b13 b14 b15 b16 b17 b18 b19 : Nat) (h12 : b12 < 256) (h13 : b13 < 256) (h14 : b14 < 256) (h15 : b15 < 256) (h16 : b16 < 256) (h17 : b17 < 256) (h18 : b18 < 256) (h19 : b19 < 256) :
    (b12 * 2 ^ 56 + b13 * 2 ^ 48 + b14 * 2 ^ 40 + b15 * 2 ^ 32 + b16 * 2 ^ 24 + b17 * 2 ^ 16 + b18 * 2 ^ 8 + b19) / 2 ^ 28 % 64 = (b15 % 4) * 16 + b16 / 16 := by omega

theorem sx22 (b12 b13 b14 b15 b16 b17 b18 b19 : Nat) (h12 : b12 < 256) (h13 : b13 < 256) (h14 : b14 < 256) (h15 : b15 < 256) (h16 : b16 < 256) (h17 : b17 < 256) (h18 : b18 < 256) (h19 : b19 < 256) :
    (b12 * 2 ^ 56 + b13 * 2 ^ 48 + b14 * 2 ^ 40 + b15 * 2 ^ 32 + b16 * 2 ^ 24 + b17 * 2 ^ 16 + b18 * 2 ^ 8 + b19) / 2 ^ 22 % 64 = (b16 % 16) * 4 + b17 / 64 := by omega

theorem sx23 (b12 b13 b14 b15 b16 b17 b18 b19 : Nat) (h12 : b12 < 256) (h13 : b13 < 256) (h14 : b14 < 256) (h15 : b15 < 256) (h16 : b16 < 256) (h17 : b17 < 256) (h18 : b18 < 256) (h19 : b19 < 256) :
    (b12 * 2 ^ 56 + b13 * 2 ^ 48 + b14 * 2 ^ 40 + b15 * 2 ^ 32 + b16 * 2 ^ 24 + b17 * 2 ^ 16 + b18 * 2 ^ 8 + b19) / 2 ^ 16 % 64 = b17 % 64 := by omega

theorem sx24 (b12 b13 b14 b15 b16 b17 b18 b19 : Nat) (h12 : b12 < 256) (h13 : b13 < 256) (h14 : b14 < 256) (h15 : b15 < 256) (h16 : b16 < 256) (h17 : b17 < 256) (h18 : b18 < 256) (h19 : b19 < 256) :
    (b12 * 2 ^ 56 + b13 * 2 ^ 48 + b14 * 2 ^ 40 + b15 * 2 ^ 32 + b16 * 2 ^ 24 + b17 * 2 ^ 16 + b18 * 2 ^ 8 + b19) / 2 ^ 10 % 64 = b18 / 4 := by omega

theorem sx25 (b12 b13 b14 b15 b16 b17 b18 b19 : Nat) (h12 : b12 < 256) (h13 : b13 < 256) (h14 : b14 < 256) (h15 : b15 < 256) (h16 : b16 < 256) (h17 : b17 < 256) (h18 : b18 < 256) (h19 : b19 < 256) :
    (b12 * 2 ^ 56 + b13 * 2 ^ 48 + b14 * 2 ^ 40 + b15 * 2 ^ 32 + b16 * 2 ^ 24 + b17 * 2 ^ 16 + b18 * 2 ^ 8 + b19) / 2 ^ 4 % 64 = (b18 % 4) * 16 + b19 / 16 := by omega

theorem sx26 (b12 b13 b14 b15 b16 b17 b18 b19 : Nat) (h12 : b12 < 256) (h13 : b13 < 256) (h14 : b14 < 256) (h15 : b15 < 256) (h16 : b16 < 256) (h17 : b17 < 256) (h18 : b18 < 256) (h19 : b19 < 256) :
    (b12 * 2 ^ 56 + b13 * 2 ^ 48 + b14 * 2 ^ 40 + b15 * 2 ^ 32 + b16 * 2 ^ 24 + b17 * 2 ^ 16 + b18 * 2 ^ 8 + b19) * 2 ^ 2 % 18446744073709551616 % 64 = (b19 % 16) * 4 := by omega

set_option maxRecDepth 100000 in
set_option maxHeartbeats 1000000 in
/-- C2: for every input byte string of exactly 20 bytes, the string
produced by `Base64PercentEncode` (which reads the digest bits directly
without building an intermediate base64 string) equals the single
percent-encoding of the standard base64 encoding of those 20 bytes,
including the trailing `=` padding rendered as `%3D`. -/
theorem base64_percent_encode_contract (s : List Nat) (h20 : s.length = 20)
    (hb : ∀ b ∈ s, b < 256) :
    base64PercentEncode s = percent_encode (standardBase64 s) := by
  obtain ⟨b0, b1, b2, b3, b4, b5, b6, b7, b8, b9, b10, b11, b12, b13, b14, b15, b16, b17, b18, b19, rfl⟩ :
      ∃ b0 b1 b2 b3 b4 b5 b6 b7 b8 b9 b10 b11 b12 b13 b14 b15 b16 b17 b18 b19, s = [b0, b1, b2, b3, b4, b5, b6, b7, b8, b9, b10, b11, b12, b13, b14, b15, b16, b17, b18, b19] := by
    match s, h20 with
    | [b0, b1, b2, b3, b4, b5, b6, b7, b8, b9, b10, b11, b12, b13, b14, b15, b16, b17, b18, b19], _ => exact ⟨b0, b1, b2, b3, b4, b5, b6, b7, b8, b9, b10, b11, b12, b13, b14, b15, b16, b17, b18, b19, rfl⟩
  have h0 : b0 < 256 := hb b0 (by simp)
  have h1 : b1 < 256 := hb b1 (by simp)
  have h2 : b2 < 256 := hb b2 (by simp)
  have h3 : b3 < 256 := hb b3 (by simp)
  have h4 : b4 < 256 := hb b4 (by simp)
  have h5 : b5 < 256 := hb b5 (by simp)
  have h6 : b6 < 256 := hb b6 (by simp)
  have h7 : b7 < 256 := hb b7 (by simp)
  have h8 : b8 < 256 := hb b8 (by simp)
  have h9 : b9 < 256 := hb b9 (by simp)
  have h10 : b10 < 256 := hb b10 (by simp)
  have h11 : b11 < 256 := hb b11 (by simp)
  have h12 : b12 < 256 := hb b12 (by simp)
  have h13 : b13 < 256 := hb b13 (by simp)
  have h14 : b14 < 256 := hb b14 (by simp)
  have h15 : b15 < 256 := hb b15 (by simp)
  have h16 : b16 < 256 := hb b16 (by simp)
  have h17 : b17 < 256 := hb b17 (by simp)
  have h18 : b18 < 256 := hb b18 (by simp)
  have h19 : b19 < 256 := hb b19 (by simp)
  have hmask : ∀ n : Nat, n &&& 63 = n % 64 := fun n => Nat.and_pow_two_sub_one_eq_mod n 6
  have hN1 : readU128 [b0, b1, b2, b3, b4, b5, b6, b7, b8, b9, b10, b11, b12, b13, b14, b15, b16, b17, b18, b19] = b0 * 2 ^ 120 + b1 * 2 ^ 112 + b2 * 2 ^ 104 + b3 * 2 ^ 96 + b4 * 2 ^ 88 + b5 * 2 ^ 80 + b6 * 2 ^ 72 + b7 * 2 ^ 64 + b8 * 2 ^ 56 + b9 * 2 ^ 48 + b10 * 2 ^ 40 + b11 * 2 ^ 32 + b12 * 2 ^ 24 + b13 * 2 ^ 16 + b14 * 2 ^ 8 + b15 := by
    simp [readU128]
    ring
  have hN2 : readU64 (List.drop 12 [b0, b1, b2, b3, b4, b5, b6, b7, b8, b9, b10, b11, b12, b13, b14, b15, b16, b17, b18, b19]) = b12 * 2 ^ 56 + b13 * 2 ^ 48 + b14 * 2 ^ 40 + b15 * 2 ^ 32 + b16 * 2 ^ 24 + b17 * 2 ^ 16 + b18 * 2 ^ 8 + b19 := by
    simp [readU64]
    ring
  have keyFin : ∀ v : Fin 64, peByte (b64char v.val) = B64ENCODE v.val := by decide
  have key : ∀ v : Nat, v < 64 → peByte (b64char v) = B64ENCODE v := fun v hv => keyFin ⟨v, hv⟩
  have hpad : strBytes "%3D" = peByte 61 := by decide
  have hs0 : ((readU128 [b0, b1, b2, b3, b4, b5, b6, b7, b8, b9, b10, b11, b12, b13, b14, b15, b16, b17, b18, b19]) >>> 122) &&& 63 = b0 / 4 := by
    rw [hmask, Nat.shiftRight_eq_div_pow, hN1]
    exact sx0 b0 b1 b2 b3 b4 b5 b6 b7 b8 b9 b10 b11 b12 b13 b14 b15 h0 h1 h2 h3 h4 h5 h6 h7 h8 h9 h10 h11 h12 h13 h14 h15
  have hs1 : ((readU128 [b0, b1, b2, b3, b4, b5, b6, b7, b8, b9, b10, b11, b12, b13, b14, b15, b16, b17, b18, b19]) >>> 116) &&& 63 = (b0 % 4) * 16 + b1 / 16 := by
    rw [hmask, Nat.shiftRight_eq_div_pow, hN1]
    exact sx1 b0 b1 b2 b3 b4 b5 b6 b7 b8 b9 b10 b11 b12 b13 b14 b15 h0 h1 h2 h3 h4 h5 h6 h7 h8 h9 h10 h11 h12 h13 h14 h15
  have hs2 : ((readU128 [b0, b1, b2, b3, b4, b5, b6, b7, b8, b9, b10, b11, b12, b13, b14, b15, b16, b17, b18, b19]) >>> 110) &&& 63 = (b1 % 16) * 4 + b2 / 64 := by
    rw [hmask, Nat.shiftRight_eq_div_pow, hN1]
    exact sx2 b0 b1 b2 b3 b4 b5 b6 b7 b8 b9 b10 b11 b12 b13 b14 b15 h0 h1 h2 h3 h4 h5 h6 h7 h8 h9 h10 h11 h12 h13 h14 h15
  have hs3 : ((readU128 [b0, b1, b2, b3, b4, b5, b6, b7, b8, b9, b10, b11, b12, b13, b14, b15, b16, b17, b18, b19]) >>> 104) &&& 63 = b2 % 64 := by
    rw [hmask, Nat.shiftRight_eq_div_pow, hN1]
    exact sx3 b0 b1 b2 b3 b4 b5 b6 b7 b8 b9 b10 b11 b12 b13 b14 b15 h0 h1 h2 h3 h4 h5 h6 h7 h8 h9 h10 h11 h12 h13 h14 h15
  have hs4 : ((readU128 [b0, b1, b2, b3, b4, b5, b6, b7, b8, b9, b10, b11, b12, b13, b14, b15, b16, b17, b18, b19]) >>> 98) &&& 63 = b3 / 4 := by
    rw [hmask, Nat.shiftRight_eq_div_pow, hN1]
    exact sx4 b0 b1 b2 b3 b4 b5 b6 b7 b8 b9 b10 b11 b12 b13 b14 b15 h0 h1 h2 h3 h4 h5 h6 h7 h8 h9 h10 h11 h12 h13 h14 h15
  have hs5 : ((readU128 [b0, b1, b2, b3, b4, b5, b6, b7, b8, b9, b10, b11, b12, b13, b14, b15, b16, b17, b18, b19]) >>> 92) &&& 63 = (b3 % 4) * 16 + b4 / 16 := by
    rw [hmask, Nat.shiftRight_eq_div_pow, hN1]
    exact sx5 b0 b1 b2 b3 b4 b5 b6 b7 b8 b9 b10 b11 b12 b13 b14 b15 h0 h1 h2 h3 h4 h5 h6 h7 h8 h9 h10 h11 h12 h13 h14 h15
  have hs6 : ((readU128 [b0, b1, b2, b3, b4, b5, b6, b7, b8, b9, b10, b11, b12, b13, b14, b15, b16, b17, b18, b19]) >>> 86) &&& 63 = (b4 % 16) * 4 + b5 / 64 := by
    rw [hmask, Nat.shiftRight_eq_div_pow, hN1]
    exact sx6 b0 b1 b2 b3 b4 b5 b6 b7 b8 b9 b10 b11 b12 b13 b14 b15 h0 h1 h2 h3 h4 h5 h6 h7 h8 h9 h10 h11 h12 h13 h14 h15
  have hs7 : ((readU128 [b0, b1, b2, b3, b4, b5, b6, b7, b8, b9, b10, b11, b12, b13, b14, b15, b16, b17, b18, b19]) >>> 80) &&& 63 = b5 % 64 := by
    rw [hmask, Nat.shiftRight_eq_div_pow, hN1]
    exact sx7 b0 b1 b2 b3 b4 b5 b6 b7 b8 b9 b10 b11 b12 b13 b14 b15 h0 h1 h2 h3 h4 h5 h6 h7 h8 h9 h10 h11 h12 h13 h14 h15
  have hs8 : ((readU128 [b0, b1, b2, b3, b4, b5, b6, b7, b8, b9, b10, b11, b12, b13, b14, b15, b16, b17, b18, b19]) >>> 74) &&& 63 = b6 / 4 := by
    rw [hmask, Nat.shiftRight_eq_div_pow, hN1]
    exact sx8 b0 b1 b2 b3 b4 b5 b6 b7 b8 b9 b10 b11 b12 b13 b14 b15 h0 h1 h2 h3 h4 h5 h6 h7 h8 h9 h10 h11 h12 h13 h14 h15
  have hs9 : ((readU128 [b0, b1, b2, b3, b4, b5, b6, b7, b8, b9, b10, b11, b12, b13, b14, b15, b16, b17, b18, b19]) >>> 68) &&& 63 = (b6 % 4) * 16 + b7 / 16 := by
    rw [hmask, Nat.shiftRight_eq_div_pow, hN1]
    exact sx9 b0 b1 b2 b3 b4 b5 b6 b7 b8 b9 b10 b11 b12 b13 b14 b15 h0 h1 h2 h3 h4 h5 h6 h7 h8 h9 h10 h11 h12 h13 h14 h15
  have hs10 : ((readU128 [b0, b1, b2, b3, b4, b5, b6, b7, b8, b9, b10, b11, b12, b13, b14, b15, b16, b17, b18, b19]) >>> 62) &&& 63 = (b7 % 16) * 4 + b8 / 64 := by
    rw [hmask, Nat.shiftRight_eq_div_pow, hN1]
    exact sx10 b0 b1 b2 b3 b4 b5 b6 b7 b8 b9 b10 b11 b12 b13 b14 b15 h0 h1 h2 h3 h4 h5 h6 h7 h8 h9 h10 h11 h12 h13 h14 h15
  have hs11 : ((readU128 [b0, b1, b2, b3, b4, b5, b6, b7, b8, b9, b10, b11, b12, b13, b14, b15, b16, b17, b18, b19]) >>> 56) &&& 63 = b8 % 64 := by
    rw [hmask, Nat.shiftRight_eq_div_pow, hN1]
    exact sx11 b0 b1 b2 b3 b4 b5 b6 b7 b8 b9 b10 b11 b12 b13 b14 b15 h0 h1 h2 h3 h4 h5 h6 h7 h8 h9 h10 h11 h12 h13 h14 h15
  have hs12 : ((readU128 [b0, b1, b2, b3, b4, b5, b6, b7, b8, b9, b10, b11, b12, b13, b14, b15, b16, b17, b18, b19]) >>> 50) &&& 63 = b9 / 4 := by
    rw [hmask, Nat.shiftRight_eq_div_pow, hN1]
    exact sx12 b0 b1 b2 b3 b4 b5 b6 b7 b8 b9 b10 b11 b12 b13 b14 b15 h0 h1 h2 h3 h4 h5 h6 h7 h8 h9 h10 h11 h12 h13 h14 h15
  have hs13 : ((readU128 [b0, b1, b2, b3, b4, b5, b6, b7, b8, b9, b10, b11, b12, b13, b14, b15, b16, b17, b18, b19]) >>> 44) &&& 63 = (b9 % 4) * 16 + b10 / 16 := by
    rw [hmask, Nat.shiftRight_eq_div_pow, hN1]
    exact sx13 b0 b1 b2 b3 b4 b5 b6 b7 b8 b9 b10 b11 b12 b13 b14 b15 h0 h1 h2 h3 h4 h5 h6 h7 h8 h9 h10 h11 h12 h13 h14 h15
  have hs14 : ((readU128 [b0, b1, b2, b3, b4, b5, b6, b7, b8, b9, b10, b11, b12, b13, b14, b15, b16, b17, b18, b19]) >>> 38) &&& 63 = (b10 % 16) * 4 + b11 / 64 := by
    rw [hmask, Nat.shiftRight_eq_div_pow, hN1]
    exact sx14 b0 b1 b2 b3 b4 b5 b6 b7 b8 b9 b10 b11 b12 b13 b14 b15 h0 h1 h2 h3 h4 h5 h6 h7 h8 h9 h10 h11 h12 h13 h14 h15
  have hs15 : ((readU128 [b0, b1, b2, b3, b4, b5, b6, b7, b8, b9, b10, b11, b12, b13, b14, b15, b16, b17, b18, b19]) >>> 32) &&& 63 = b11 % 64 := by
    rw [hmask, Nat.shiftRight_eq_div_pow, hN1]
    exact sx15 b0 b1 b2 b3 b4 b5 b6 b7 b8 b9 b10 b11 b12 b13 b14 b15 h0 h1 h2 h3 h4 h5 h6 h7 h8 h9 h10 h11 h12 h13 h14 h15
  have hs16 : ((readU64 (List.drop 12 [b0, b1, b2, b3, b4, b5, b6, b7, b8, b9, b10, b11, b12, b13, b14, b15, b16, b17, b18, b19])) >>> 58) &&& 63 = b12 / 4 := by
    rw [hmask, Nat.shiftRight_eq_div_pow, hN2]
    exact sx16 b12 b13 b14 b15 b16 b17 b18 b19 h12 h13 h14 h15 h16 h17 h18 h19
  have hs17 : ((readU64 (List.drop 12 [b0, b1, b2, b3, b4, b5, b6, b7, b8, b9, b10, b11, b12, b13, b14, b15, b16, b17, b18, b19])) >>> 52) &&& 63 = (b12 % 4) * 16 + b13 / 16 := by
    rw [hmask, Nat.shiftRight_eq_div_pow, hN2]
    exact sx17 b12 b13 b14 b15 b16 b17 b18 b19 h12 h13 h14 h15 h16 h17 h18 h19
  have hs18 : ((readU64 (List.drop 12 [b0, b1, b2, b3, b4, b5, b6, b7, b8, b9, b10, b11, b12, b13, b14, b15, b16, b17, b18, b19])) >>> 46) &&& 63 = (b13 % 16) * 4 + b14 / 64 := by
    rw [hmask, Nat.shiftRight_eq_div_pow, hN2]
    exact sx18 b12 b13 b14 b15 b16 b17 b18 b19 h12 h13 h14 h15 h16 h17 h18 h19
  have hs19 : ((readU64 (List.drop 12 [b0, b1, b2, b3, b4, b5, b6, b7, b8, b9, b10, b11, b12, b13, b14, b15, b16, b17, b18, b19])) >>> 40) &&& 63 = b14 % 64 := by
    rw [hmask, Nat.shiftRight_eq_div_pow, hN2]
    exact sx19 b12 b13 b14 b15 b16 b17 b18 b19 h12 h13 h14 h15 h16 h17 h18 h19
  have hs20 : ((readU64 (List.drop 12 [b0, b1, b2, b3, b4, b5, b6, b7, b8, b9, b10, b11, b12, b13, b14, b15, b16, b17, b18, b19])) >>> 34) &&& 63 = b15 / 4 := by
    rw [hmask, Nat.shiftRight_eq_div_pow, hN2]
    exact sx20 b12 b13 b14 b15 b16 b17 b18 b19 h12 h13 h14 h15 h16 h17 h18 h19
  have hs21 : ((readU64 (List.drop 12 [b0, b1, b2, b3, b4, b5, b6, b7, b8, b9, b10, b11, b12, b13, b14, b15, b16, b17, b18, b19])) >>> 28) &&& 63 = (b15 % 4) * 16 + b16 / 16 := by
    rw [hmask, Nat.shiftRight_eq_div_pow, hN2]
    exact sx21 b12 b13 b14 b15 b16 b17 b18 b19 h12 h13 h14 h15 h16 h17 h18 h19
  have hs22 : ((readU64 (List.drop 12 [b0, b1, b2, b3, b4, b5, b6, b7, b8, b9, b10, b11, b12, b13, b14, b15, b16, b17, b18, b19])) >>> 22) &&& 63 = (b16 % 16) * 4 + b17 / 64 := by
    rw [hmask, Nat.shiftRight_eq_div_pow, hN2]
    exact sx22 b12 b13 b14 b15 b16 b17 b18 b19 h12 h13 h14 h15 h16 h17 h18 h19
  have hs23 : ((readU64 (List.drop 12 [b0, b1, b2, b3, b4, b5, b6, b7, b8, b9, b10, b11, b12, b13, b14, b15, b16, b17, b18, b19])) >>> 16) &&& 63 = b17 % 64 := by
    rw [hmask, Nat.shiftRight_eq_div_pow, hN2]
    exact sx23 b12 b13 b14 b15 b16 b17 b18 b19 h12 h13 h14 h15 h16 h17 h18 h19
  have hs24 : ((readU64 (List.drop 12 [b0, b1, b2, b3, b4, b5, b6, b7, b8, b9, b10, b11, b12, b13, b14, b15, b16, b17, b18, b19])) >>> 10) &&& 63 = b18 / 4 := by
    rw [hmask, Nat.shiftRight_eq_div_pow, hN2]
    exact sx24 b12 b13 b14 b15 b16 b17 b18 b19 h12 h13 h14 h15 h16 h17 h18 h19
  have hs25 : ((readU64 (List.drop 12 [b0, b1, b2, b3, b4, b5, b6, b7, b8, b9, b10, b11, b12, b13, b14, b15, b16, b17, b18, b19])) >>> 4) &&& 63 = (b18 % 4) * 16 + b19 / 16 := by
    rw [hmask, Nat.shiftRight_eq_div_pow, hN2]
    exact sx25 b12 b13 b14 b15 b16 b17 b18 b19 h12 h13 h14 h15 h16 h17 h18 h19
  have hs26 : (((readU64 (List.drop 12 [b0, b1, b2, b3, b4, b5, b6, b7, b8, b9, b10, b11, b12, b13, b14, b15, b16, b17, b18, b19])) <<< 2) % 18446744073709551616) &&& 63 = (b19 % 16) * 4 := by
    rw [hmask, Nat.shiftLeft_eq, hN2]
    exact sx26 b12 b13 b14 b15 b16 b17 b18 b19 h12 h13 h14 h15 h16 h17 h18 h19
  simp only [base64PercentEncode]
  simp only [standardBase64, percent_encode, List.flatMap_cons, List.flatMap_nil,
    List.append_nil]
  simp only [hs0, hs1, hs2, hs3, hs4, hs5, hs6, hs7, hs8, hs9, hs10, hs11, hs12, hs13, hs14, hs15, hs16, hs17, hs18, hs19, hs20, hs21, hs22, hs23, hs24, hs25, hs26]
  simp only [key (b0 / 4) (by omega), key ((b0 % 4) * 16 + b1 / 16) (by omega), key ((b1 % 16) * 4 + b2 / 64) (by omega), key (b2 % 64) (by omega), key (b3 / 4) (by omega), key ((b3 % 4) * 16 + b4 / 16) (by omega), key ((b4 % 16) * 4 + b5 / 64) (by omega), key (b5 % 64) (by omega), key (b6 / 4) (by omega), key ((b6 % 4) * 16 + b7 / 16) (by omega), key ((b7 % 16) * 4 + b8 / 64) (by omega), key (b8 % 64) (by omega), key (b9 / 4) (by omega), key ((b9 % 4) * 16 + b10 / 16) (by omega), key ((b10 % 16) * 4 + b11 / 64) (by omega), key (b11 % 64) (by omega), key (b12 / 4) (by omega), key ((b12 % 4) * 16 + b13 / 16) (by omega), key ((b13 % 16) * 4 + b14 / 64) (by omega), key (b14 % 64) (by omega), key (b15 / 4) (by omega), key ((b15 % 4) * 16 + b16 / 16) (by omega), key ((b16 % 16) * 4 + b17 / 64) (by omega), key (b17 % 64) (by omega), key (b18 / 4) (by omega), key ((b18 % 4) * 16 + b19 / 16) (by omega), key ((b19 % 16) * 4) (by omega)]
  rw [hpad]
  simp only [List.append_assoc]


/-- Witness for C2 at the concrete digest of the repository's
`base64_percent_encode` test. -/
theorem base64_percent_encode_contract_witness :
    ([132, 43, 82, 153, 136, 126, 136, 118, 2, 18, 160, 86, 172, 78, 194, 238,
      22, 38, 181, 73] : List Nat).length = 20 ∧
    (∀ b ∈ ([132, 43, 82, 153, 136, 126, 136, 118, 2, 18, 160, 86, 172, 78,
      194, 238, 22, 38, 181, 73] : List Nat), b < 256) ∧
    base64PercentEncode [132, 43, 82, 153, 136, 126, 136, 118, 2, 18, 160, 86,
        172, 78, 194, 238, 22, 38, 181, 73] =
      percent_encode (standardBase64 [132, 43, 82, 153, 136, 126, 136, 118, 2,
        18, 160, 86, 172, 78, 194, 238, 22, 38, 181, 73]) :=
  ⟨by decide, by decide,
   base64_percent_encode_contract [132, 43, 82, 153, 136, 126, 136, 118, 2, 18,
     160, 86, 172, 78, 194, 238, 22, 38, 181, 73] (by decide) (by decide)⟩

end TwitterStreams
